import Mathlib

/-!
Verification of the ITF match-record reconciliation and conditional-nullification
engine (`itf_fix_nan.py`, `itf_combined_scraper.py`, `itf_home_away_auditor.py`).

The table is embedded shallowly: a numeric statistic cell is `Option Int`
(`none` is the missing marker, pandas `NaN`; comparisons such as `df[c] == 0`
are false on `NaN`, which `Option Int` equality against `some 0` reproduces),
the textual `match_score` cell is `Option String`, and a row maps column names
to cell values.  Column access `df[c]` on a missing column raises `KeyError`;
the engine is therefore `Except String Table`, erroring with the name of the
first column read without an existence guard.
-/

namespace ITF

/-- One row of the wide per-match statistics table: the textual `match_score`
cell plus the numeric cells, keyed by column name (`none` = `NaN`). -/
structure Row where
  match_score : Option String
  cells : String → Option Int

/-- Read a numeric cell (`df.at[idx, c]` / `df[c]` rowwise). -/
def Row.get (r : Row) (c : String) : Option Int := r.cells c

/-- Write a numeric cell (`df.at[idx, c] = v` / `df.loc[mask, c] = v` rowwise). -/
def Row.set (r : Row) (c : String) (v : Option Int) : Row :=
  { r with cells := fun c' => if c' = c then v else r.cells c' }

/-- The wide table: the column list (header) and the rows. -/
structure Table where
  cols : List String
  rows : List Row

/-- `'pat' in c` for strings (Python substring containment). -/
def containsSub (pat s : String) : Bool :=
  (List.range (s.data.length + 1)).any (fun i => pat.data.isPrefixOf (s.data.drop i))

/-- `df[c]` existence guard: models the `KeyError` raised by an unguarded
column access when `c` is not in the header. -/
def checkCol (df : Table) (c : String) : Except String Unit :=
  if c ∈ df.cols then .ok () else .error c

/-- Set every column of `cs` to `NaN` in a row
(`for col in cs: df.loc[mask, col] = np.nan`, restricted to one masked row). -/
def nullCols (cs : List String) (r : Row) : Row :=
  cs.foldl (fun r c => r.set c none) r

/-- `df['match_score'].isin l` on one row: `NaN` gives `False`. -/
def msIn (r : Row) (l : List String) : Bool :=
  match r.match_score with
  | some s => l.contains s
  | none => false

/-- `df['match_score'] == s` on one row. -/
def msEq (r : Row) (s : String) : Bool := r.match_score == some s

/-! ### Rule 1: s3 columns → NaN for matches without Set 3 (lines 97-116) -/

/-- The `no_s3` mask of Rule 1 (lines 100-106): `home_set3` missing, or
`match_score ∈ {2-0, 0-2}`, or `∈ {1-0, 0-1, 0-0}`, or `1-1` with
`home_set3` missing.  Note the source consults only `home_set3`. -/
def noS3 (r : Row) : Bool :=
  (((r.get "home_set3").isNone || msIn r ["2-0", "0-2"])
    || msIn r ["1-0", "0-1", "0-0"])
    || (msEq r "1-1" && (r.get "home_set3").isNone)

/-- `s3_cols = [c for c in stat_cols if '_s3_' in c]` where
`stat_cols = df.columns[28:]` (lines 89, 108). -/
def s3StatCols (cols : List String) : List String :=
  (cols.drop 28).filter (fun c => containsSub "_s3_" c)

/-- Rule 1 on one row: null every `_s3_` stat column when `no_s3` holds. -/
def r1Row (cols : List String) (r : Row) : Row :=
  if noS3 r then nullCols (s3StatCols cols) r else r

/-- Rule 1 on the table; reads `df['home_set3']` and `df['match_score']`
without existence guards (line 100). -/
def rule1 (df : Table) : Except String Table :=
  (checkCol df "home_set3").bind fun _ =>
  (checkCol df "match_score").bind fun _ =>
  .ok { df with rows := df.rows.map (r1Row df.cols) }

/-! ### Rule 1b: s2 columns → NaN for matches without Set 2 (lines 119-136) -/

/-- The `no_s2` mask of Rule 1b (lines 122-126). -/
def noS2 (r : Row) : Bool :=
  ((r.get "home_set2").isNone || msIn r ["0-0"])
    || (msIn r ["1-0", "0-1"] && (r.get "home_set2").isNone)

/-- `s2_cols = [c for c in stat_cols if '_s2_' in c]` (line 128). -/
def s2StatCols (cols : List String) : List String :=
  (cols.drop 28).filter (fun c => containsSub "_s2_" c)

/-- Rule 1b on one row. -/
def r1bRow (cols : List String) (r : Row) : Row :=
  if noS2 r then nullCols (s2StatCols cols) r else r

/-- Rule 1b on the table; reads `df['home_set2']` and `df['match_score']`
without existence guards (line 122). -/
def rule1b (df : Table) : Except String Table :=
  (checkCol df "home_set2").bind fun _ =>
  (checkCol df "match_score").bind fun _ =>
  .ok { df with rows := df.rows.map (r1bRow df.cols) }

/-! ### Rule 2: per-set TB columns → NaN for non-tiebreak sets (lines 139-171) -/

/-- `TB_STATS` (line 49). -/
def TB_STATS : List String :=
  ["tb_serve_pts_won", "tb_serve_pts_played", "tb_return_pts_won", "tb_return_pts_played"]

/-- `SIDES` (line 60). -/
def SIDES : List String := ["home", "away"]

/-- `tb_per_set_cols[set_n]` (lines 143-147): the per-set TB stat columns
present in the header, side-major order. -/
def tbPerSetCols (cols : List String) (n : Nat) : List String :=
  ((SIDES.map (fun side =>
    TB_STATS.map (fun stat => side ++ "_s" ++ toString n ++ "_" ++ stat))).flatten).filter
    (fun c => decide (c ∈ cols))

/-- `set_played = df[h].notna() & df[a].notna()` for set `n`, one row. -/
def setPlayed (n : Nat) (r : Row) : Bool :=
  (r.get ("home_set" ++ toString n)).isSome && (r.get ("away_set" ++ toString n)).isSome

/-- `is_tb = ((h==7)&(a==6)) | ((h==6)&(a==7))` for set `n`, one row. -/
def isTB (n : Nat) (r : Row) : Bool :=
  ((r.get ("home_set" ++ toString n) == some 7) && (r.get ("away_set" ++ toString n) == some 6))
    || ((r.get ("home_set" ++ toString n) == some 6) && (r.get ("away_set" ++ toString n) == some 7))

/-- Rule 2, one set on one row: if `home_setN` exists, null the set's TB stat
columns when the set was played and was not a tiebreak (lines 150-168). -/
def r2SetRow (cols : List String) (n : Nat) (r : Row) : Row :=
  if decide (("home_set" ++ toString n) ∈ cols) then
    (if setPlayed n r && !isTB n r then nullCols (tbPerSetCols cols n) r else r)
  else r

/-- Rule 2 on one row, sets 1, 2, 3 in order. -/
def r2Row (cols : List String) (r : Row) : Row :=
  r2SetRow cols 3 (r2SetRow cols 2 (r2SetRow cols 1 r))

/-- Rule 2's unguarded read: for each set whose `home_setN` exists, the source
reads `df[a_col]` (line 156) without checking `away_setN` exists. -/
def rule2Check (df : Table) (n : Nat) : Except String Unit :=
  if decide (("home_set" ++ toString n) ∈ df.cols) then
    checkCol df ("away_set" ++ toString n)
  else .ok ()

/-- Rule 2 on the table. -/
def rule2 (df : Table) : Except String Table :=
  (rule2Check df 1).bind fun _ =>
  (rule2Check df 2).bind fun _ =>
  (rule2Check df 3).bind fun _ =>
  .ok { df with rows := df.rows.map (r2Row df.cols) }

/-! ### Rule 3: overall TB columns → NaN if no TB in the match (lines 174-203) -/

/-- `no_tb_match = ~(has_tb_s1 | has_tb_s2 | has_tb_s3)` (lines 179-191);
`has_tb_s3` defaults to `False` when `home_set3` is not in the header
(lines 181-183); `fillna(False)` is implicit in the `Option Int` equality. -/
def noTBMatch (cols : List String) (r : Row) : Bool :=
  !(isTB 1 r || isTB 2 r || (if decide ("home_set3" ∈ cols) then isTB 3 r else false))

/-- `overall_tb_cols` (lines 193-194). -/
def overallTBCols (cols : List String) : List String :=
  ((SIDES.map (fun side => TB_STATS.map (fun stat => side ++ "_" ++ stat))).flatten).filter
    (fun c => decide (c ∈ cols))

/-- Rule 3 on one row. -/
def r3Row (cols : List String) (r : Row) : Row :=
  if noTBMatch cols r then nullCols (overallTBCols cols) r else r

/-- Rule 3 on the table; reads set-1 and set-2 score columns without guards
(lines 179-180), and `away_set3` when `home_set3` exists (line 183). -/
def rule3 (df : Table) : Except String Table :=
  (checkCol df "home_set1").bind fun _ =>
  (checkCol df "away_set1").bind fun _ =>
  (checkCol df "home_set2").bind fun _ =>
  (checkCol df "away_set2").bind fun _ =>
  (if decide ("home_set3" ∈ df.cols) then checkCol df "away_set3" else .ok ()).bind fun _ =>
  .ok { df with rows := df.rows.map (r3Row df.cols) }

/-! ### Rule 4: s1_mp columns → always NaN (lines 206-221) -/

/-- `s1_mp_cols` (lines 210-212). -/
def s1mpCols (cols : List String) : List String :=
  ((SIDES.map (fun side =>
    ["saved", "faced", "converted", "opportunities"].map
      (fun stat => side ++ "_s1_mp_" ++ stat))).flatten).filter
    (fun c => decide (c ∈ cols))

/-- Rule 4 on one row: `df[col] = np.nan`, unconditional (lines 215-216). -/
def r4Row (cols : List String) (r : Row) : Row :=
  nullCols (s1mpCols cols) r

/-- Rule 4 on the table (column existence is guarded in the comprehension). -/
def rule4 (df : Table) : Except String Table :=
  .ok { df with rows := df.rows.map (r4Row df.cols) }

/-! ### Rules 5-7 share the shape "null the target when a source cell and the
target cell are both exactly zero, provided the columns exist". -/

/-- One conditional-nullification write: `mem` is the precomputed header
guard, `src` the gating column, `tgt` the written column. -/
structure Gate where
  src : String
  tgt : String
  mem : Bool

/-- Apply one gate: null `tgt` when the guard holds and both `src` and `tgt`
are exactly `0` (pandas `== 0` is false on `NaN`, so `some 0` equality is the
translation; the source's redundant `.notna()` conjuncts are implied). -/
def Gate.app (g : Gate) (r : Row) : Row :=
  if g.mem && (r.get g.src == some 0) && (r.get g.tgt == some 0) then
    r.set g.tgt none
  else r

/-- Apply a list of gates left to right. -/
def foldGates (gs : List Gate) (r : Row) : Row :=
  gs.foldl (fun r g => g.app r) r

/-! ### Rule 5: s2_mp of the Set-1 winner → NaN when zero (lines 224-265) -/

/-- Set-1 winner of a row (lines 230-246): `none` when a score is missing or
the set is tied (the row is skipped). -/
def winner1 (r : Row) : Option String :=
  match r.get "home_set1", r.get "away_set1" with
  | some h, some a =>
      if h > a then some "home" else if a > h then some "away" else none
  | _, _ => none

/-- The two writes of Rule 5 for winner `w` (lines 257-261):
`if col in df.columns and df.at[idx, col] == 0: df.at[idx, col] = np.nan`
(here the gate's source and target coincide). -/
def r5Gates (cols : List String) (w : String) : List Gate :=
  ["mp_faced", "mp_saved"].map (fun stat =>
    { src := w ++ "_s2_" ++ stat, tgt := w ++ "_s2_" ++ stat,
      mem := decide ((w ++ "_s2_" ++ stat) ∈ cols) })

/-- Rule 5 on one row. -/
def r5Row (cols : List String) (r : Row) : Row :=
  match winner1 r with
  | none => r
  | some w => foldGates (r5Gates cols w) r

/-- Rule 5 on the table; iterating a nonempty index reads
`df.at[idx, 'home_set1']` and `df.at[idx, 'away_set1']` without guards
(lines 229-231). -/
def rule5 (df : Table) : Except String Table :=
  if df.rows.isEmpty then .ok df
  else
    (checkCol df "home_set1").bind fun _ =>
    (checkCol df "away_set1").bind fun _ =>
    .ok { df with rows := df.rows.map (r5Row df.cols) }

/-! ### Rules 6-7: saved → NaN when faced == 0; converted → NaN when
opportunities == 0 (lines 267-318) -/

/-- One entry of `CONDITIONAL_NAN_PAIRS` (lines 53-58). -/
structure PairCfg where
  saved_col : String
  faced_col : String
  convOpp : Option (String × String)

/-- `CONDITIONAL_NAN_PAIRS` (lines 53-58): bp has a converted/opportunities
pair; sp and mp only have saved/faced. -/
def CONDITIONAL_NAN_PAIRS : List PairCfg :=
  [{ saved_col := "bp_saved", faced_col := "bp_faced",
     convOpp := some ("bp_converted", "bp_opportunities") },
   { saved_col := "sp_saved", faced_col := "sp_faced", convOpp := none },
   { saved_col := "mp_saved", faced_col := "mp_faced", convOpp := none }]

/-- The faced/saved pair, then (bp only) the opportunities/converted pair, for
one column prefix (`f'{side}_'` or `f'{side}_s{n}_'`). -/
def familyPairs (pre : String) (cfg : PairCfg) : List (String × String) :=
  [(pre ++ cfg.faced_col, pre ++ cfg.saved_col)]
  ++ (match cfg.convOpp with
      | some p => [(pre ++ p.2, pre ++ p.1)]
      | none => [])

/-- The (source, target) column pairs of rules 6-7 in loop order
(lines 275-314): per side, per stat family: overall saved, overall converted
(bp only), then per set 1-3: saved, converted (bp only). -/
def pairs67 : List (String × String) :=
  (SIDES.map (fun side =>
    (CONDITIONAL_NAN_PAIRS.map (fun cfg =>
      familyPairs (side ++ "_") cfg
      ++ (([1, 2, 3] : List Nat).map (fun n =>
            familyPairs (side ++ "_s" ++ toString n ++ "_") cfg)).flatten)).flatten)).flatten

/-- The gates of rules 6-7: each pair's write is guarded by both columns
existing in the header (lines 280, 290, 301, 310). -/
def r67Gates (cols : List String) : List Gate :=
  pairs67.map (fun p => { src := p.1, tgt := p.2, mem := decide (p.1 ∈ cols ∧ p.2 ∈ cols) })

/-- Rules 6-7 on one row. -/
def r67Row (cols : List String) (r : Row) : Row :=
  foldGates (r67Gates cols) r

/-- Rules 6-7 on the table (all column accesses guarded). -/
def rules67 (df : Table) : Except String Table :=
  .ok { df with rows := df.rows.map (r67Row df.cols) }

/-! ### The full engine (`main`, lines 94-318) -/

/-- The Conditional Nullification Engine: rules 1, 1b, 2, 3, 4, 5, 6-7 in
source order.  An uncaught `KeyError` aborts the whole run (the output file
is never written), so the error value carries no partial table. -/
def fixNan (df : Table) : Except String Table :=
  (rule1 df).bind fun d1 =>
  (rule1b d1).bind fun d2 =>
  (rule2 d2).bind fun d3 =>
  (rule3 d3).bind fun d4 =>
  (rule4 d4).bind fun d5 =>
  (rule5 d5).bind fun d6 =>
  rules67 d6

/-- The composed per-row transformation of a successful run. -/
def fixRow (cols : List String) (r : Row) : Row :=
  r67Row cols (r5Row cols (r4Row cols (r3Row cols (r2Row cols (r1bRow cols (r1Row cols r))))))

end ITF

namespace Scraper

/-!
### Embedding of `apply_results` (src/itf_combined_scraper.py, lines 436-500)

One iteration of the per-row loop.  `row` is the snapshot yielded by
`df.iterrows()` — a copy, so writes `df.at[idx, c] = v` do not update it; all
backfill and swap conditions read the snapshot while writes accumulate in the
current state.  Every cell is `Option String` (`none` = `NaN` or absent
column; `pandas.Series.get` on an absent key also gives `None`, which
`pd.notna` rejects).  Adding the `court_type` column (line 475) fills it with
`NaN` for every row, which is the state an absent key already denotes here,
so the per-row value model needs no column-list threading.
-/

/-- A row of the ITF table or of the scraped artifact, keyed by column. -/
abbrev PRow := String → Option String

/-- Write one cell of the accumulating row state. -/
def upd (f : PRow) (c : String) (v : Option String) : PRow :=
  fun c' => if c' = c then v else f c'

/-- `str.strip()`: drop leading and trailing whitespace (data-based so that
concrete witnesses evaluate). -/
def pyStrip (s : String) : String :=
  String.mk (((s.data.dropWhile Char.isWhitespace).reverse.dropWhile
    Char.isWhitespace).reverse)

/-- `str.lower()`. -/
def pyLower (s : String) : String := String.mk (s.data.map Char.toLower)

/-- `str.split()`: split on whitespace runs, dropping empty tokens. -/
def pyTokens (s : String) : List String :=
  ((List.splitOnP (fun ch => ch.isWhitespace) s.data).map String.mk).filter
    (fun t => !(t == ""))

/-- `pd.isna(x) or str(x).strip() == ''`: the record field is missing or
blank. -/
def blankNa (x : Option String) : Bool :=
  match x with
  | none => true
  | some v => pyStrip v == ""

/-- One tiebreak-score fill (lines 443-451): copy `page_set{n}_tb_{side}`
into `{side}_set{n}_tb` when both columns exist, the page value is present
(`pd.notna(page_val)`) and the record value is `NaN`. -/
def tbFillOne (dfCols scrapeCols : List String) (row s : PRow)
    (p : Nat × String) (st : PRow) : PRow :=
  if (p.2 ++ "_set" ++ toString p.1 ++ "_tb") ∈ dfCols ∧
      ("page_set" ++ toString p.1 ++ "_tb_" ++ p.2) ∈ scrapeCols ∧
      (s ("page_set" ++ toString p.1 ++ "_tb_" ++ p.2)).isSome = true ∧
      (row (p.2 ++ "_set" ++ toString p.1 ++ "_tb")).isNone = true then
    upd st (p.2 ++ "_set" ++ toString p.1 ++ "_tb")
      (s ("page_set" ++ toString p.1 ++ "_tb_" ++ p.2))
  else st

/-- Loop order of the tiebreak fills: `for set_n in [1,2,3]: for side in
['home','away']`. -/
def tbPairs : List (Nat × String) :=
  (([1, 2, 3] : List Nat).map (fun n => ["home", "away"].map (fun side => (n, side)))).flatten

/-- `time_map` (lines 454-459). -/
def TIME_MAP : List (String × String) :=
  [("time_overall", "page_time_overall"), ("time_set1", "page_time_set1"),
   ("time_set2", "page_time_set2"), ("time_set3", "page_time_set3")]

/-- One elapsed-time fill (lines 460-465): copy the page value when both
columns exist, the page value is present and the record value is missing or
blank. -/
def timeFillOne (dfCols scrapeCols : List String) (row s : PRow)
    (p : String × String) (st : PRow) : PRow :=
  if p.1 ∈ dfCols ∧ p.2 ∈ scrapeCols ∧ (s p.2).isSome = true ∧
      blankNa (row p.1) = true then
    upd st p.1 (s p.2)
  else st

/-- The date/time fill (lines 468-470). -/
def dateFill (row s : PRow) (st : PRow) : PRow :=
  if (s "page_date_time").isSome = true ∧ blankNa (row "list_date_time") = true then
    upd st "list_date_time" (s "page_date_time")
  else st

/-- The court-surface fill (lines 473-478); creating the `court_type` column
writes `NaN`, already this model's reading of an absent key. -/
def surfaceFill (scrapeCols : List String) (row s : PRow) (st : PRow) : PRow :=
  if "page_court_type" ∈ scrapeCols ∧ (s "page_court_type").isSome = true ∧
      blankNa (row "court_type") = true then
    upd st "court_type" (s "page_court_type")
  else st

/-- The Field Backfill Engine on one row (lines 442-478): tiebreak scores,
elapsed times, date/time, surface, in source order, starting from the
snapshot (nothing has been written to this row yet). -/
def applyBackfill (dfCols scrapeCols : List String) (row s : PRow) : PRow :=
  surfaceFill scrapeCols row s
    (dateFill row s
      (TIME_MAP.foldl (fun st p => timeFillOne dfCols scrapeCols row s p st)
        (tbPairs.foldl (fun st p => tbFillOne dfCols scrapeCols row s p st) row)))

/-- `hc.replace('home_', 'away_', 1)` for a column starting with `home_`:
the first occurrence is the 5-character prefix itself. -/
def awayOf (hc : String) : String := "away_" ++ String.mk (hc.data.drop 5)

/-- `c.startswith('home_')`. -/
def startsHome (c : String) : Bool := "home_".data.isPrefixOf c.data

/-- `str(row.get('match_score', ''))`: the raw value when the column exists
(`str(nan) = 'nan'` for a missing cell), `''` otherwise. -/
def msStr (dfCols : List String) (row : PRow) : String :=
  if "match_score" ∈ dfCols then
    (match row "match_score" with
     | some v => v
     | none => "nan")
  else ""

/-- `c.startswith('away_')` (spec-side helper for stating frame conditions). -/
def startsAway (c : String) : Bool := "away_".data.isPrefixOf c.data

/-- The player name/id exchanges (lines 483-484), right-hand sides from the
snapshot `row`. -/
def swapPlayers (row st : PRow) : PRow :=
  upd (upd (upd (upd st "player_home" (row "player_away"))
    "player_away" (row "player_home"))
    "player_home_id" (row "player_away_id"))
    "player_away_id" (row "player_home_id")

/-- One iteration of the `home_* <-> away_*` exchange loop (lines 487-491):
write the snapshot's away value into the home column and vice versa, when
the away counterpart exists. -/
def swapPairStep (dfCols : List String) (row : PRow) (st : PRow) (hc : String) : PRow :=
  if awayOf hc ∈ dfCols then
    upd (upd st hc (row (awayOf hc))) (awayOf hc) (row hc)
  else st

/-- The exchange loop over a list of `home_`-prefixed columns. -/
def swapFold (dfCols : List String) (row : PRow) (l : List String) (st : PRow) : PRow :=
  l.foldl (swapPairStep dfCols row) st

/-- `ms.split('-')` (keeps empty parts, like Python `str.split` with an
explicit separator). -/
def pySplitDash (ms : String) : List String :=
  (List.splitOn '-' ms.data).map String.mk

/-- The `match_score` reversal (lines 494-497): `str(row.get('match_score',
''))`, reversed around its first dash when one is present
(`f"{parts[1]}-{parts[0]}"`). -/
def swapScore (dfCols : List String) (row st : PRow) : PRow :=
  if (msStr dfCols row).data.contains '-' then
    upd st "match_score"
      (some ((pySplitDash (msStr dfCols row)).getD 1 ""
        ++ "-" ++ (pySplitDash (msStr dfCols row)).getD 0 ""))
  else st

/-- The Swap Corrector writes (lines 481-497) applied to state `st`, with
every right-hand side read from the snapshot `row`: exchange the player
name/id fields, exchange each `home_`-prefixed column with its `away_`
counterpart when that counterpart exists, and reverse `match_score` around
its first dash. -/
def swapWrites (dfCols : List String) (row st : PRow) : PRow :=
  swapScore dfCols row
    (swapFold dfCols row (dfCols.filter (fun c => startsHome c)) (swapPlayers row st))

/-- The Swap Corrector applied to one row in isolation (state = snapshot):
the corrected record for a row classified `swapped`. -/
def swapRow (dfCols : List String) (row : PRow) : PRow :=
  swapWrites dfCols row row

/-- One full iteration of the apply loop for a matched `match_uid`
(lines 442-500): backfill, then — when the scraped artifact classifies the
row `swapped` — the swap writes, whose right-hand sides are the snapshot. -/
def applyRow (dfCols scrapeCols : List String) (row s : PRow) : PRow :=
  let st := applyBackfill dfCols scrapeCols row s
  if s "ha_status" == some "swapped" then swapWrites dfCols row st else st

/-!
### Embedding of `determine_home_away_status`
(src/itf_combined_scraper.py, lines 332-357)

Names and ids are `Option String` (`none` = absent).  A Python `NaN` id is
truthy but compares unequal to every id, so it falls through to the name
comparison exactly as `none` does here.
-/

/-- Python truthiness of an id/name value. -/
def truthy (x : Option String) : Bool :=
  match x with
  | none => false
  | some v => !(v == "")

/-- `surname` (lines 343-344): `name.split()[-1].lower().strip() if name
else ""`.  `none` is the `IndexError` raised when a nonempty name has no
whitespace-delimited token. -/
def surname (name : Option String) : Option String :=
  match name with
  | none => some ""
  | some n =>
    if n == "" then some ""
    else
      match (pyTokens n).getLast? with
      | some t => some (pyStrip (pyLower t))
      | none => none

/-- The id-based comparison (lines 336-340): `none` when any id is falsy or
the ids neither match in order nor swapped. -/
def idCompare (csv_home_id csv_away_id page_home_id page_away_id : Option String) :
    Option (String × String) :=
  if truthy page_home_id && truthy page_away_id && truthy csv_home_id && truthy csv_away_id then
    if csv_home_id == page_home_id && csv_away_id == page_away_id then
      some ("correct", "id_match")
    else if csv_home_id == page_away_id && csv_away_id == page_home_id then
      some ("swapped", "id_match")
    else none
  else none

/-- `determine_home_away_status` (lines 332-357).  The outer `none` is an
uncaught `IndexError` from a whitespace-only name. -/
def determine_home_away_status
    (csv_home_id csv_away_id page_home_id page_away_id
     csv_home_name csv_away_name page_home_name page_away_name : Option String) :
    Option (String × String) :=
  match idCompare csv_home_id csv_away_id page_home_id page_away_id with
  | some res => some res
  | none =>
    match surname csv_home_name, surname csv_away_name,
          surname page_home_name, surname page_away_name with
    | some csv_h, some csv_a, some page_h, some page_a =>
      if !(csv_h == "") && !(page_h == "") then
        if csv_h == page_h && csv_a == page_a then some ("correct", "name_match")
        else if csv_h == page_a && csv_a == page_h then some ("swapped", "name_match")
        else some ("unknown", "no_match")
      else some ("unknown", "no_match")
    | _, _, _, _ => none

end Scraper

namespace ITF

/-! ### Basic cell lemmas -/

theorem Row.ext' {a b : Row} (hms : a.match_score = b.match_score)
    (h : ∀ c, a.get c = b.get c) : a = b := by
  cases a with
  | mk ms cl =>
    cases b with
    | mk ms' cl' =>
      simp only [Row.get] at h
      simp only at hms
      subst hms
      rw [funext h]

@[simp] theorem Row.get_set (r : Row) (c c' : String) (v : Option Int) :
    (r.set c v).get c' = if c' = c then v else r.get c' := rfl

@[simp] theorem Row.set_match_score (r : Row) (c : String) (v : Option Int) :
    (r.set c v).match_score = r.match_score := rfl

theorem Row.set_none_id {r : Row} {c : String} (h : r.get c = none) :
    r.set c none = r := by
  refine Row.ext' rfl fun c' => ?_
  rw [Row.get_set]
  by_cases hc : c' = c
  · subst hc; rw [if_pos rfl, h]
  · rw [if_neg hc]

theorem nullCols_nil (r : Row) : nullCols [] r = r := rfl

theorem nullCols_cons (c : String) (cs : List String) (r : Row) :
    nullCols (c :: cs) r = nullCols cs (r.set c none) := rfl

theorem nullCols_match_score (cs : List String) (r : Row) :
    (nullCols cs r).match_score = r.match_score := by
  induction cs generalizing r with
  | nil => rfl
  | cons c cs ih => rw [nullCols_cons, ih, Row.set_match_score]

theorem get_nullCols (cs : List String) (r : Row) (c : String) :
    (nullCols cs r).get c = if c ∈ cs then none else r.get c := by
  induction cs generalizing r with
  | nil => simp [nullCols_nil]
  | cons d ds ih =>
    rw [nullCols_cons, ih]
    by_cases hc : c ∈ ds
    · simp [hc]
    · by_cases hd : c = d <;> simp [hc, hd]

theorem nullCols_id {cs : List String} {r : Row} (h : ∀ c ∈ cs, r.get c = none) :
    nullCols cs r = r := by
  apply Row.ext' (nullCols_match_score cs r)
  intro c
  rw [get_nullCols]
  by_cases hc : c ∈ cs
  · rw [if_pos hc, (h c hc).symm]
  · rw [if_neg hc]

/-! ### Monotonicity machinery: every write of the engine is `NaN`, so a
present value survives backwards and a missing value is absorbing. -/

/-- `f` never invents or changes a present value: whatever is `some v`
afterwards was `some v` before. -/
def Keeps (f : Row → Row) : Prop :=
  ∀ r c v, (f r).get c = some v → r.get c = some v

theorem Keeps.compKeeps {f g : Row → Row} (hf : Keeps f) (hg : Keeps g) :
    Keeps (fun r => g (f r)) :=
  fun r c v h => hf r c v (hg (f r) c v h)

theorem Keeps.none {f : Row → Row} (hf : Keeps f) {r : Row} {c : String}
    (h : r.get c = none) : (f r).get c = none := by
  cases hv : (f r).get c with
  | none => rfl
  | some v => rw [hf r c v hv] at h; cases h

theorem keeps_nullCols (cs : List String) : Keeps (nullCols cs) := by
  intro r c v h
  rw [get_nullCols] at h
  by_cases hc : c ∈ cs
  · rw [if_pos hc] at h; cases h
  · rwa [if_neg hc] at h

theorem keeps_ite {p : Row → Bool} {f : Row → Row} (hf : Keeps f) :
    Keeps (fun r => if p r then f r else r) := by
  intro r c v h
  dsimp only at h
  by_cases hp : p r = true
  · rw [if_pos hp] at h; exact hf r c v h
  · rwa [if_neg hp] at h

/-! ### Gate lemmas (rules 5-7) -/

/-- The trigger of a gate: header guard holds and both cells are exactly 0. -/
def Gate.trig (g : Gate) (r : Row) : Prop :=
  g.mem = true ∧ r.get g.src = some 0 ∧ r.get g.tgt = some 0

instance (g : Gate) (r : Row) : Decidable (g.trig r) := by
  unfold Gate.trig; infer_instance

theorem Gate.app_eq (g : Gate) (r : Row) :
    g.app r = if g.trig r then r.set g.tgt none else r := by
  unfold Gate.app Gate.trig
  by_cases h1 : g.mem = true <;> by_cases h2 : r.get g.src = some 0 <;>
    by_cases h3 : r.get g.tgt = some 0 <;>
    simp [h1, h2, h3]

theorem Gate.keeps (g : Gate) : Keeps g.app := by
  intro r c v h
  rw [Gate.app_eq] at h
  split_ifs at h
  · rw [Row.get_set] at h
    by_cases hc : c = g.tgt
    · rw [if_pos hc] at h; cases h
    · rwa [if_neg hc] at h
  · exact h

theorem Gate.app_match_score (g : Gate) (r : Row) :
    (g.app r).match_score = r.match_score := by
  rw [Gate.app_eq]; split_ifs <;> rfl

theorem Gate.get_app_ne (g : Gate) (r : Row) {c : String} (h : c ≠ g.tgt) :
    (g.app r).get c = r.get c := by
  rw [Gate.app_eq]
  split_ifs
  · rw [Row.get_set, if_neg h]
  · rfl

theorem Gate.app_of_not_trig {g : Gate} {r : Row} (h : ¬ g.trig r) : g.app r = r := by
  rw [Gate.app_eq, if_neg h]

theorem Gate.trig_congr {g : Gate} {a b : Row} (hs : a.get g.src = b.get g.src)
    (ht : a.get g.tgt = b.get g.tgt) : g.trig a ↔ g.trig b := by
  unfold Gate.trig; rw [hs, ht]

theorem trig_back {f : Row → Row} (hf : Keeps f) (g : Gate) {r : Row}
    (h : g.trig (f r)) : g.trig r :=
  ⟨h.1, hf _ _ _ h.2.1, hf _ _ _ h.2.2⟩

theorem foldGates_nil (r : Row) : foldGates [] r = r := rfl

theorem foldGates_cons (g : Gate) (gs : List Gate) (r : Row) :
    foldGates (g :: gs) r = foldGates gs (g.app r) := rfl

theorem keeps_foldGates (gs : List Gate) : Keeps (foldGates gs) := by
  induction gs with
  | nil => intro r c v h; exact h
  | cons g gs ih =>
    intro r c v h
    rw [foldGates_cons] at h
    exact g.keeps r c v (ih (g.app r) c v h)

theorem foldGates_match_score (gs : List Gate) (r : Row) :
    (foldGates gs r).match_score = r.match_score := by
  induction gs generalizing r with
  | nil => rfl
  | cons g gs ih => rw [foldGates_cons, ih, Gate.app_match_score]

/-- After a pass of gates, no gate of the pass can still fire: its target is
either no longer 0 (it was nulled by the pass) or it never was eligible. -/
theorem foldGates_no_trig (gs : List Gate) (r : Row) :
    ∀ g ∈ gs, ¬ g.trig (foldGates gs r) := by
  induction gs generalizing r with
  | nil => intro g hg; cases hg
  | cons g0 gs ih =>
    intro g hg
    rw [foldGates_cons]
    rcases List.mem_cons.1 hg with rfl | hmem
    · by_cases ht : g.trig r
      · rw [Gate.app_eq, if_pos ht]
        intro htr
        have hnone : (foldGates gs (r.set g.tgt none)).get g.tgt = none :=
          Keeps.none (keeps_foldGates gs) (by rw [Row.get_set, if_pos rfl])
        rw [htr.2.2] at hnone; cases hnone
      · rw [Gate.app_of_not_trig ht]
        intro htr
        exact ht (trig_back (keeps_foldGates gs) g htr)
    · exact ih (g0.app r) g hmem

theorem foldGates_id_of_no_trig {gs : List Gate} {r : Row}
    (h : ∀ g ∈ gs, ¬ g.trig r) : foldGates gs r = r := by
  induction gs with
  | nil => rfl
  | cons g gs ih =>
    rw [foldGates_cons, Gate.app_of_not_trig (h g (List.mem_cons_self g gs))]
    exact ih fun g' hg' => h g' (List.mem_cons_of_mem g hg')

/-- A pass of zero-gated writes is idempotent. -/
theorem foldGates_idem (gs : List Gate) (r : Row) :
    foldGates gs (foldGates gs r) = foldGates gs r :=
  foldGates_id_of_no_trig (foldGates_no_trig gs r)

/-- A pass of gates either leaves a cell alone or nulls a cell that was
exactly 0. -/
theorem foldGates_zero_change (gs : List Gate) (r : Row) (c : String) :
    (foldGates gs r).get c = r.get c ∨
      (r.get c = some 0 ∧ (foldGates gs r).get c = none) := by
  induction gs generalizing r with
  | nil => left; rfl
  | cons g gs ih =>
    rw [foldGates_cons, Gate.app_eq]
    split_ifs with ht
    · rcases ih (r.set g.tgt none) with h | ⟨h0, hn⟩
      · rw [h, Row.get_set]
        by_cases hc : c = g.tgt
        · subst hc
          right
          exact ⟨ht.2.2, by rw [if_pos rfl]⟩
        · left; rw [if_neg hc]
      · rw [Row.get_set] at h0
        by_cases hc : c = g.tgt
        · rw [if_pos hc] at h0; cases h0
        · rw [if_neg hc] at h0; right; exact ⟨h0, hn⟩
    · exact ih r

theorem foldGates_get_not_tgt (gs : List Gate) (s : Row) {c : String}
    (h : c ∉ gs.map Gate.tgt) : (foldGates gs s).get c = s.get c := by
  induction gs generalizing s with
  | nil => rfl
  | cons g gs ih =>
    rw [foldGates_cons, ih (g.app s) (fun hm => h (by simp [hm])),
      Gate.get_app_ne g s (fun he => h (by simp [he]))]

/-- Exact behavior of a gate pass at the target of one of its gates, when
targets are distinct and no source is a target: the pass nulls the target
exactly when the gate's trigger held on the input row. -/
theorem foldGates_char (gs : List Gate) (r : Row) (g : Gate) (hg : g ∈ gs)
    (hnd : (gs.map Gate.tgt).Nodup)
    (hsrc : ∀ g' ∈ gs, ∀ g'' ∈ gs, g'.src ≠ g''.tgt) :
    (foldGates gs r).get g.tgt = if g.trig r then none else r.get g.tgt := by
  induction gs generalizing r with
  | nil => cases hg
  | cons g0 gs ih =>
    rw [foldGates_cons]
    rcases List.mem_cons.1 hg with rfl | hmem
    · have htgt : g.tgt ∉ gs.map Gate.tgt := (List.nodup_cons.1 hnd).1
      rw [foldGates_get_not_tgt gs _ htgt, Gate.app_eq]
      split_ifs
      · rw [Row.get_set, if_pos rfl]
      · rfl
    · have hne_src : g.src ≠ g0.tgt :=
        hsrc g (List.mem_cons_of_mem g0 hmem) g0 (List.mem_cons_self g0 gs)
      have hne_tgt : g.tgt ≠ g0.tgt := by
        intro he
        exact (List.nodup_cons.1 hnd).1 (he ▸ List.mem_map_of_mem Gate.tgt hmem)
      rw [ih (g0.app r) hmem (List.nodup_cons.1 hnd).2
        (fun a ha b hb => hsrc a (List.mem_cons_of_mem g0 ha) b (List.mem_cons_of_mem g0 hb)),
        Gate.get_app_ne g0 r hne_tgt]
      congr 1
      · exact propext (Gate.trig_congr (Gate.get_app_ne g0 r hne_src)
          (Gate.get_app_ne g0 r hne_tgt))

end ITF

namespace ITF

/-! ### The score columns and `match_score` are never written by any rule, so
every mask is stable across the whole engine. -/

/-- The per-set score columns consulted by the masks. -/
def scoreNames : List String :=
  ["home_set1", "away_set1", "home_set2", "away_set2", "home_set3", "away_set3"]

/-- `f` changes neither `match_score` nor any per-set score cell. -/
def ScorePres (f : Row → Row) : Prop :=
  (∀ r, (f r).match_score = r.match_score) ∧
    ∀ r c, c ∈ scoreNames → (f r).get c = r.get c

theorem ScorePres.compScores {f g : Row → Row} (hf : ScorePres f) (hg : ScorePres g) :
    ScorePres (fun r => g (f r)) :=
  ⟨fun r => (hg.1 (f r)).trans (hf.1 r),
   fun r c hc => ((hg.2 (f r) c hc)).trans (hf.2 r c hc)⟩

theorem score_not_s3 : ∀ c ∈ scoreNames, containsSub "_s3_" c = false := by decide

theorem score_not_s2 : ∀ c ∈ scoreNames, containsSub "_s2_" c = false := by decide

theorem score_not_tbSet : ∀ n ∈ ([1, 2, 3] : List Nat), ∀ c ∈ scoreNames,
    c ∉ ((SIDES.map (fun side =>
      TB_STATS.map (fun stat => side ++ "_s" ++ toString n ++ "_" ++ stat))).flatten) := by
  decide

theorem score_not_overallTB : ∀ c ∈ scoreNames,
    c ∉ ((SIDES.map (fun side => TB_STATS.map (fun stat => side ++ "_" ++ stat))).flatten) := by
  decide

theorem score_not_s1mp : ∀ c ∈ scoreNames,
    c ∉ ((SIDES.map (fun side =>
      ["saved", "faced", "converted", "opportunities"].map
        (fun stat => side ++ "_s1_mp_" ++ stat))).flatten) := by
  decide

theorem score_not_67 : ∀ c ∈ scoreNames, c ∉ pairs67.map Prod.snd := by decide

/-! ### Rule 1 -/

theorem keeps_r1 (cols : List String) : Keeps (r1Row cols) := by
  intro r c v h
  unfold r1Row at h
  split_ifs at h
  · exact keeps_nullCols _ r c v h
  · exact h

theorem scorePres_r1 (cols : List String) : ScorePres (r1Row cols) := by
  constructor
  · intro r
    unfold r1Row
    split_ifs
    · exact nullCols_match_score _ r
    · rfl
  · intro r c hc
    unfold r1Row
    split_ifs
    · rw [get_nullCols, if_neg]
      intro hmem
      have h2 := (List.mem_filter.1 hmem).2
      rw [score_not_s3 c hc] at h2
      cases h2
    · rfl

/-! ### Rule 1b -/

theorem keeps_r1b (cols : List String) : Keeps (r1bRow cols) := by
  intro r c v h
  unfold r1bRow at h
  split_ifs at h
  · exact keeps_nullCols _ r c v h
  · exact h

theorem scorePres_r1b (cols : List String) : ScorePres (r1bRow cols) := by
  constructor
  · intro r
    unfold r1bRow
    split_ifs
    · exact nullCols_match_score _ r
    · rfl
  · intro r c hc
    unfold r1bRow
    split_ifs
    · rw [get_nullCols, if_neg]
      intro hmem
      have h2 := (List.mem_filter.1 hmem).2
      rw [score_not_s2 c hc] at h2
      cases h2
    · rfl

/-! ### Rule 2 -/

theorem keeps_r2Set (cols : List String) (n : Nat) : Keeps (r2SetRow cols n) := by
  intro r c v h
  unfold r2SetRow at h
  split_ifs at h
  · exact keeps_nullCols _ r c v h
  · exact h
  · exact h

theorem scorePres_r2Set (cols : List String) {n : Nat} (hn : n ∈ ([1, 2, 3] : List Nat)) :
    ScorePres (r2SetRow cols n) := by
  constructor
  · intro r
    unfold r2SetRow
    split_ifs
    · exact nullCols_match_score _ r
    · rfl
    · rfl
  · intro r c hc
    unfold r2SetRow
    split_ifs
    · rw [get_nullCols, if_neg]
      intro hmem
      exact score_not_tbSet n hn c hc (List.mem_of_mem_filter hmem)
    · rfl
    · rfl

theorem keeps_r2 (cols : List String) : Keeps (r2Row cols) := by
  intro r c v h
  unfold r2Row at h
  exact keeps_r2Set cols 1 r c v (keeps_r2Set cols 2 _ c v (keeps_r2Set cols 3 _ c v h))

theorem scorePres_r2 (cols : List String) : ScorePres (r2Row cols) := by
  have h12 := (scorePres_r2Set cols (n := 1) (by decide)).compScores
    (scorePres_r2Set cols (n := 2) (by decide))
  have h123 := h12.compScores (scorePres_r2Set cols (n := 3) (by decide))
  exact ⟨fun r => h123.1 r, fun r c hc => h123.2 r c hc⟩

/-! ### Rule 3 -/

theorem keeps_r3 (cols : List String) : Keeps (r3Row cols) := by
  intro r c v h
  unfold r3Row at h
  split_ifs at h
  · exact keeps_nullCols _ r c v h
  · exact h

theorem scorePres_r3 (cols : List String) : ScorePres (r3Row cols) := by
  constructor
  · intro r
    unfold r3Row
    split_ifs
    · exact nullCols_match_score _ r
    · rfl
  · intro r c hc
    unfold r3Row
    split_ifs
    · rw [get_nullCols, if_neg]
      intro hmem
      exact score_not_overallTB c hc (List.mem_of_mem_filter hmem)
    · rfl

/-! ### Rule 4 -/

theorem keeps_r4 (cols : List String) : Keeps (r4Row cols) :=
  fun r c v h => keeps_nullCols _ r c v h

theorem scorePres_r4 (cols : List String) : ScorePres (r4Row cols) := by
  constructor
  · intro r; exact nullCols_match_score _ r
  · intro r c hc
    unfold r4Row
    rw [get_nullCols, if_neg]
    intro hmem
    exact score_not_s1mp c hc (List.mem_of_mem_filter hmem)

/-! ### Rule 5 -/

theorem winner1_cases {r : Row} {w : String} (h : winner1 r = some w) :
    w = "home" ∨ w = "away" := by
  unfold winner1 at h
  split at h
  · split_ifs at h
    · left; cases h; rfl
    · right; cases h; rfl
  · cases h

theorem keeps_r5 (cols : List String) : Keeps (r5Row cols) := by
  intro r c v h
  unfold r5Row at h
  split at h
  · exact h
  · exact keeps_foldGates _ r c v h

theorem r5Gates_tgts (cols : List String) (w : String) :
    (r5Gates cols w).map Gate.tgt =
      [w ++ "_s2_" ++ "mp_faced", w ++ "_s2_" ++ "mp_saved"] := by
  unfold r5Gates
  rfl

theorem scorePres_r5 (cols : List String) : ScorePres (r5Row cols) := by
  constructor
  · intro r
    unfold r5Row
    split
    · rfl
    · exact foldGates_match_score _ r
  · intro r c hc
    unfold r5Row
    split
    · rfl
    · next w hw =>
      apply foldGates_get_not_tgt
      rw [r5Gates_tgts]
      rcases winner1_cases hw with rfl | rfl
      · fin_cases hc <;> decide
      · fin_cases hc <;> decide

/-! ### Rules 6-7 -/

theorem keeps_r67 (cols : List String) : Keeps (r67Row cols) :=
  fun r c v h => keeps_foldGates _ r c v h

theorem r67Gates_tgts (cols : List String) :
    (r67Gates cols).map Gate.tgt = pairs67.map Prod.snd := by
  unfold r67Gates
  rw [List.map_map]
  rfl

theorem scorePres_r67 (cols : List String) : ScorePres (r67Row cols) := by
  constructor
  · intro r; exact foldGates_match_score _ r
  · intro r c hc
    apply foldGates_get_not_tgt
    rw [r67Gates_tgts]
    exact score_not_67 c hc

end ITF

namespace ITF

/-! ### Mask stability: every mask reads only `match_score` and score cells -/

theorem noS3_congr {a b : Row} (hms : a.match_score = b.match_score)
    (h : ∀ c ∈ scoreNames, a.get c = b.get c) : noS3 a = noS3 b := by
  unfold noS3 msIn msEq
  rw [hms, h "home_set3" (by decide)]

theorem noS2_congr {a b : Row} (hms : a.match_score = b.match_score)
    (h : ∀ c ∈ scoreNames, a.get c = b.get c) : noS2 a = noS2 b := by
  unfold noS2 msIn
  rw [hms, h "home_set2" (by decide)]

theorem isTB_congr {a b : Row} (h : ∀ c ∈ scoreNames, a.get c = b.get c)
    {n : Nat} (hn : n ∈ ([1, 2, 3] : List Nat)) : isTB n a = isTB n b := by
  fin_cases hn <;> unfold isTB <;> rw [h _ (by decide), h _ (by decide)]

theorem setPlayed_congr {a b : Row} (h : ∀ c ∈ scoreNames, a.get c = b.get c)
    {n : Nat} (hn : n ∈ ([1, 2, 3] : List Nat)) : setPlayed n a = setPlayed n b := by
  fin_cases hn <;> unfold setPlayed <;> rw [h _ (by decide), h _ (by decide)]

theorem noTBMatch_congr (cols : List String) {a b : Row}
    (h : ∀ c ∈ scoreNames, a.get c = b.get c) : noTBMatch cols a = noTBMatch cols b := by
  unfold noTBMatch
  rw [isTB_congr h (show (1 : Nat) ∈ [1, 2, 3] by decide),
    isTB_congr h (show (2 : Nat) ∈ [1, 2, 3] by decide),
    isTB_congr h (show (3 : Nat) ∈ [1, 2, 3] by decide)]

theorem winner1_congr {a b : Row} (h : ∀ c ∈ scoreNames, a.get c = b.get c) :
    winner1 a = winner1 b := by
  unfold winner1
  rw [h "home_set1" (by decide), h "away_set1" (by decide)]

/-! ### A rule is the identity once everything it would write is already
missing (or its gates can no longer fire) -/

theorem r1Row_id_of (cols : List String) {X : Row}
    (h : noS3 X = true → ∀ c ∈ s3StatCols cols, X.get c = none) : r1Row cols X = X := by
  unfold r1Row
  split_ifs with hm
  · exact nullCols_id (h hm)
  · rfl

theorem r1bRow_id_of (cols : List String) {X : Row}
    (h : noS2 X = true → ∀ c ∈ s2StatCols cols, X.get c = none) : r1bRow cols X = X := by
  unfold r1bRow
  split_ifs with hm
  · exact nullCols_id (h hm)
  · rfl

theorem r2SetRow_id_of (cols : List String) (n : Nat) {X : Row}
    (h : ("home_set" ++ toString n) ∈ cols → (setPlayed n X && !isTB n X) = true →
      ∀ c ∈ tbPerSetCols cols n, X.get c = none) :
    r2SetRow cols n X = X := by
  unfold r2SetRow
  split_ifs with h1 h2
  · exact nullCols_id (h (of_decide_eq_true h1) h2)
  · rfl
  · rfl

theorem r3Row_id_of (cols : List String) {X : Row}
    (h : noTBMatch cols X = true → ∀ c ∈ overallTBCols cols, X.get c = none) :
    r3Row cols X = X := by
  unfold r3Row
  split_ifs with hm
  · exact nullCols_id (h hm)
  · rfl

theorem r4Row_id_of (cols : List String) {X : Row}
    (h : ∀ c ∈ s1mpCols cols, X.get c = none) : r4Row cols X = X :=
  nullCols_id h

theorem r5Row_id_of (cols : List String) {X : Row}
    (h : ∀ w, winner1 X = some w → ∀ g ∈ r5Gates cols w, ¬ g.trig X) :
    r5Row cols X = X := by
  unfold r5Row
  split
  · rfl
  · next w hw => exact foldGates_id_of_no_trig (h w hw)

theorem r67Row_id_of (cols : List String) {X : Row}
    (h : ∀ g ∈ r67Gates cols, ¬ g.trig X) : r67Row cols X = X :=
  foldGates_id_of_no_trig h

/-! ### Run-1 postconditions, pushed to the end of the pass -/

theorem r2SetRow_nulls (cols : List String) {s : Row} {n : Nat}
    (hmem : ("home_set" ++ toString n) ∈ cols)
    (hm : (setPlayed n s && !isTB n s) = true) :
    ∀ c ∈ tbPerSetCols cols n, (r2SetRow cols n s).get c = none := by
  intro c hc
  unfold r2SetRow
  rw [if_pos (decide_eq_true hmem), if_pos hm, get_nullCols, if_pos hc]

theorem r2Row_nulls (cols : List String) {s : Row} {n : Nat}
    (hn : n ∈ ([1, 2, 3] : List Nat)) (hmem : ("home_set" ++ toString n) ∈ cols)
    (hm : (setPlayed n s && !isTB n s) = true) :
    ∀ c ∈ tbPerSetCols cols n, (r2Row cols s).get c = none := by
  intro c hc
  unfold r2Row
  fin_cases hn
  · exact (keeps_r2Set cols 3).none ((keeps_r2Set cols 2).none
      (r2SetRow_nulls cols hmem hm c hc))
  · have hsp : ∀ c' ∈ scoreNames, (r2SetRow cols 1 s).get c' = s.get c' :=
      fun c' hc' => (scorePres_r2Set cols (by decide)).2 s c' hc'
    have hm' : (setPlayed 2 (r2SetRow cols 1 s) && !isTB 2 (r2SetRow cols 1 s)) = true := by
      rw [setPlayed_congr hsp (by decide), isTB_congr hsp (by decide)]
      exact hm
    exact (keeps_r2Set cols 3).none (r2SetRow_nulls cols hmem hm' c hc)
  · have hsp : ∀ c' ∈ scoreNames,
        (r2SetRow cols 2 (r2SetRow cols 1 s)).get c' = s.get c' := fun c' hc' =>
      ((scorePres_r2Set cols (by decide)).2 _ c' hc').trans
        ((scorePres_r2Set cols (by decide)).2 s c' hc')
    have hm' : (setPlayed 3 (r2SetRow cols 2 (r2SetRow cols 1 s)) &&
        !isTB 3 (r2SetRow cols 2 (r2SetRow cols 1 s))) = true := by
      rw [setPlayed_congr hsp (by decide), isTB_congr hsp (by decide)]
      exact hm
    exact r2SetRow_nulls cols hmem hm' c hc

end ITF

namespace ITF

/-! ### Composites over the whole per-row pass -/

theorem keeps_fixRow (cols : List String) : Keeps (fixRow cols) := by
  intro r c v h
  exact keeps_r1 cols r c v (keeps_r1b cols _ c v (keeps_r2 cols _ c v (keeps_r3 cols _ c v
    (keeps_r4 cols _ c v (keeps_r5 cols _ c v (keeps_r67 cols _ c v h))))))

theorem scorePres_fixRow (cols : List String) : ScorePres (fixRow cols) := by
  constructor
  · intro r
    exact ((scorePres_r67 cols).1 _).trans (((scorePres_r5 cols).1 _).trans
      (((scorePres_r4 cols).1 _).trans (((scorePres_r3 cols).1 _).trans
      (((scorePres_r2 cols).1 _).trans (((scorePres_r1b cols).1 _).trans
      ((scorePres_r1 cols).1 r))))))
  · intro r c hc
    exact ((scorePres_r67 cols).2 _ c hc).trans (((scorePres_r5 cols).2 _ c hc).trans
      (((scorePres_r4 cols).2 _ c hc).trans (((scorePres_r3 cols).2 _ c hc).trans
      (((scorePres_r2 cols).2 _ c hc).trans (((scorePres_r1b cols).2 _ c hc).trans
      ((scorePres_r1 cols).2 r c hc))))))

/-! ### Run-1 postconditions at the end of the pass -/

theorem fixRow_s3_none (cols : List String) {r : Row} (hm : noS3 r = true) :
    ∀ c ∈ s3StatCols cols, (fixRow cols r).get c = none := by
  intro c hc
  have h1 : (r1Row cols r).get c = none := by
    unfold r1Row
    rw [if_pos hm, get_nullCols, if_pos hc]
  exact (keeps_r67 cols).none ((keeps_r5 cols).none ((keeps_r4 cols).none
    ((keeps_r3 cols).none ((keeps_r2 cols).none ((keeps_r1b cols).none h1)))))

theorem fixRow_s2_none (cols : List String) {r : Row} (hm : noS2 r = true) :
    ∀ c ∈ s2StatCols cols, (fixRow cols r).get c = none := by
  intro c hc
  have hm1 : noS2 (r1Row cols r) = true := by
    rw [noS2_congr ((scorePres_r1 cols).1 r) (fun c' hc' => (scorePres_r1 cols).2 r c' hc')]
    exact hm
  have h2 : (r1bRow cols (r1Row cols r)).get c = none := by
    unfold r1bRow
    rw [if_pos hm1, get_nullCols, if_pos hc]
  exact (keeps_r67 cols).none ((keeps_r5 cols).none ((keeps_r4 cols).none
    ((keeps_r3 cols).none ((keeps_r2 cols).none h2))))

theorem fixRow_tb_none (cols : List String) {r : Row} {n : Nat}
    (hn : n ∈ ([1, 2, 3] : List Nat)) (hmem : ("home_set" ++ toString n) ∈ cols)
    (hm : (setPlayed n r && !isTB n r) = true) :
    ∀ c ∈ tbPerSetCols cols n, (fixRow cols r).get c = none := by
  intro c hc
  have hsp : ∀ c' ∈ scoreNames, (r1bRow cols (r1Row cols r)).get c' = r.get c' :=
    fun c' hc' => ((scorePres_r1b cols).2 _ c' hc').trans ((scorePres_r1 cols).2 r c' hc')
  have hm2 : (setPlayed n (r1bRow cols (r1Row cols r)) &&
      !isTB n (r1bRow cols (r1Row cols r))) = true := by
    rw [setPlayed_congr hsp hn, isTB_congr hsp hn]
    exact hm
  have h3 := r2Row_nulls cols hn hmem hm2 c hc
  exact (keeps_r67 cols).none ((keeps_r5 cols).none ((keeps_r4 cols).none
    ((keeps_r3 cols).none h3)))

theorem fixRow_overallTB_none (cols : List String) {r : Row}
    (hm : noTBMatch cols r = true) :
    ∀ c ∈ overallTBCols cols, (fixRow cols r).get c = none := by
  intro c hc
  have hsp : ∀ c' ∈ scoreNames,
      (r2Row cols (r1bRow cols (r1Row cols r))).get c' = r.get c' := fun c' hc' =>
    ((scorePres_r2 cols).2 _ c' hc').trans
      (((scorePres_r1b cols).2 _ c' hc').trans ((scorePres_r1 cols).2 r c' hc'))
  have hm3 : noTBMatch cols (r2Row cols (r1bRow cols (r1Row cols r))) = true := by
    rw [noTBMatch_congr cols hsp]
    exact hm
  have h4 : (r3Row cols (r2Row cols (r1bRow cols (r1Row cols r)))).get c = none := by
    unfold r3Row
    rw [if_pos hm3, get_nullCols, if_pos hc]
  exact (keeps_r67 cols).none ((keeps_r5 cols).none ((keeps_r4 cols).none h4))

theorem fixRow_s1mp_none (cols : List String) (r : Row) :
    ∀ c ∈ s1mpCols cols, (fixRow cols r).get c = none := by
  intro c hc
  have h5 : (r4Row cols (r3Row cols (r2Row cols (r1bRow cols (r1Row cols r))))).get c
      = none := by
    unfold r4Row
    rw [get_nullCols, if_pos hc]
  exact (keeps_r67 cols).none ((keeps_r5 cols).none h5)

theorem fixRow_no_trig_r5 (cols : List String) {r : Row} {w : String}
    (hw : winner1 r = some w) :
    ∀ g ∈ r5Gates cols w, ¬ g.trig (fixRow cols r) := by
  intro g hg htr
  have hsp : ∀ c' ∈ scoreNames,
      (r4Row cols (r3Row cols (r2Row cols (r1bRow cols (r1Row cols r))))).get c'
        = r.get c' := fun c' hc' =>
    ((scorePres_r4 cols).2 _ c' hc').trans (((scorePres_r3 cols).2 _ c' hc').trans
      (((scorePres_r2 cols).2 _ c' hc').trans
        (((scorePres_r1b cols).2 _ c' hc').trans ((scorePres_r1 cols).2 r c' hc'))))
  have hw5 : winner1 (r4Row cols (r3Row cols (r2Row cols (r1bRow cols (r1Row cols r)))))
      = some w := by
    rw [winner1_congr hsp]
    exact hw
  have htr6 : g.trig (r5Row cols
      (r4Row cols (r3Row cols (r2Row cols (r1bRow cols (r1Row cols r)))))) :=
    trig_back (keeps_r67 cols) g htr
  have heq : r5Row cols (r4Row cols (r3Row cols (r2Row cols (r1bRow cols (r1Row cols r)))))
      = foldGates (r5Gates cols w)
          (r4Row cols (r3Row cols (r2Row cols (r1bRow cols (r1Row cols r))))) := by
    unfold r5Row
    rw [hw5]
  rw [heq] at htr6
  exact foldGates_no_trig (r5Gates cols w) _ g hg htr6

theorem fixRow_no_trig_r67 (cols : List String) (r : Row) :
    ∀ g ∈ r67Gates cols, ¬ g.trig (fixRow cols r) := by
  intro g hg
  exact foldGates_no_trig (r67Gates cols)
    (r5Row cols (r4Row cols (r3Row cols (r2Row cols (r1bRow cols (r1Row cols r)))))) g hg

/-! ### Per-row idempotence of the whole pass -/

theorem fixRow_idem (cols : List String) (r : Row) :
    fixRow cols (fixRow cols r) = fixRow cols r := by
  have hms : (fixRow cols r).match_score = r.match_score := (scorePres_fixRow cols).1 r
  have hsp : ∀ c ∈ scoreNames, (fixRow cols r).get c = r.get c :=
    fun c hc => (scorePres_fixRow cols).2 r c hc
  have A1 : r1Row cols (fixRow cols r) = fixRow cols r := by
    apply r1Row_id_of
    intro hm
    rw [noS3_congr hms hsp] at hm
    exact fixRow_s3_none cols hm
  have A2 : r1bRow cols (fixRow cols r) = fixRow cols r := by
    apply r1bRow_id_of
    intro hm
    rw [noS2_congr hms hsp] at hm
    exact fixRow_s2_none cols hm
  have A3 : r2Row cols (fixRow cols r) = fixRow cols r := by
    have e1 : r2SetRow cols 1 (fixRow cols r) = fixRow cols r := by
      apply r2SetRow_id_of
      intro hmem hm
      rw [setPlayed_congr hsp (by decide), isTB_congr hsp (by decide)] at hm
      exact fixRow_tb_none cols (by decide) hmem hm
    have e2 : r2SetRow cols 2 (fixRow cols r) = fixRow cols r := by
      apply r2SetRow_id_of
      intro hmem hm
      rw [setPlayed_congr hsp (by decide), isTB_congr hsp (by decide)] at hm
      exact fixRow_tb_none cols (by decide) hmem hm
    have e3 : r2SetRow cols 3 (fixRow cols r) = fixRow cols r := by
      apply r2SetRow_id_of
      intro hmem hm
      rw [setPlayed_congr hsp (by decide), isTB_congr hsp (by decide)] at hm
      exact fixRow_tb_none cols (by decide) hmem hm
    unfold r2Row
    rw [e1, e2, e3]
  have A4 : r3Row cols (fixRow cols r) = fixRow cols r := by
    apply r3Row_id_of
    intro hm
    rw [noTBMatch_congr cols hsp] at hm
    exact fixRow_overallTB_none cols hm
  have A5 : r4Row cols (fixRow cols r) = fixRow cols r :=
    r4Row_id_of cols (fixRow_s1mp_none cols r)
  have A6 : r5Row cols (fixRow cols r) = fixRow cols r := by
    apply r5Row_id_of
    intro w hw g hg
    rw [winner1_congr hsp] at hw
    exact fixRow_no_trig_r5 cols hw g hg
  have A7 : r67Row cols (fixRow cols r) = fixRow cols r :=
    r67Row_id_of cols (fixRow_no_trig_r67 cols r)
  show r67Row cols (r5Row cols (r4Row cols (r3Row cols (r2Row cols
    (r1bRow cols (r1Row cols (fixRow cols r))))))) = fixRow cols r
  rw [A1, A2, A3, A4, A5, A6, A7]

end ITF

namespace ITF

/-! ### Table-level plumbing: a run succeeds exactly when every unguardedly
read column exists, and then maps `fixRow` over the rows -/

theorem bindOk {α β : Type} (a : α) (f : α → Except String β) :
    (Except.ok a).bind f = f a := rfl

theorem bindErr {α β : Type} (e : String) (f : α → Except String β) :
    (Except.error e : Except String α).bind f = .error e := rfl

/-- The columns the engine reads without an existence guard. -/
def EngineOK (cols : List String) : Prop :=
  "home_set3" ∈ cols ∧ "match_score" ∈ cols ∧ "home_set2" ∈ cols ∧
  (∀ n ∈ ([1, 2, 3] : List Nat),
    ("home_set" ++ toString n) ∈ cols → ("away_set" ++ toString n) ∈ cols) ∧
  "home_set1" ∈ cols ∧ "away_set1" ∈ cols ∧ "away_set2" ∈ cols ∧
  ("home_set3" ∈ cols → "away_set3" ∈ cols)

instance (cols : List String) : Decidable (EngineOK cols) := by
  unfold EngineOK
  infer_instance

theorem rule1_eq (df : Table) (h3 : "home_set3" ∈ df.cols)
    (hms : "match_score" ∈ df.cols) :
    rule1 df = .ok { cols := df.cols, rows := df.rows.map (r1Row df.cols) } := by
  unfold rule1 checkCol
  rw [if_pos h3, if_pos hms]
  rfl

theorem rule1b_eq (df : Table) (h2 : "home_set2" ∈ df.cols)
    (hms : "match_score" ∈ df.cols) :
    rule1b df = .ok { cols := df.cols, rows := df.rows.map (r1bRow df.cols) } := by
  unfold rule1b checkCol
  rw [if_pos h2, if_pos hms]
  rfl

theorem rule2Check_ok {df : Table} {n : Nat}
    (h : ("home_set" ++ toString n) ∈ df.cols → ("away_set" ++ toString n) ∈ df.cols) :
    rule2Check df n = .ok () := by
  unfold rule2Check checkCol
  by_cases hm : ("home_set" ++ toString n) ∈ df.cols
  · rw [if_pos (decide_eq_true hm), if_pos (h hm)]
  · rw [if_neg (fun hd => hm (of_decide_eq_true hd))]

theorem rule2_eq (df : Table)
    (h : ∀ n ∈ ([1, 2, 3] : List Nat),
      ("home_set" ++ toString n) ∈ df.cols → ("away_set" ++ toString n) ∈ df.cols) :
    rule2 df = .ok { cols := df.cols, rows := df.rows.map (r2Row df.cols) } := by
  unfold rule2
  rw [rule2Check_ok (h 1 (by decide)), rule2Check_ok (h 2 (by decide)),
    rule2Check_ok (h 3 (by decide))]
  rfl

theorem rule3_eq (df : Table) (h1 : "home_set1" ∈ df.cols) (hA1 : "away_set1" ∈ df.cols)
    (h2 : "home_set2" ∈ df.cols) (hA2 : "away_set2" ∈ df.cols)
    (h3c : "home_set3" ∈ df.cols → "away_set3" ∈ df.cols) :
    rule3 df = .ok { cols := df.cols, rows := df.rows.map (r3Row df.cols) } := by
  unfold rule3 checkCol
  rw [if_pos h1, if_pos hA1, if_pos h2, if_pos hA2]
  by_cases h3 : "home_set3" ∈ df.cols
  · rw [if_pos (decide_eq_true h3), if_pos (h3c h3)]
    rfl
  · rw [if_neg (fun hd => h3 (of_decide_eq_true hd))]
    rfl

theorem rule4_eq (df : Table) :
    rule4 df = .ok { cols := df.cols, rows := df.rows.map (r4Row df.cols) } := rfl

theorem rule5_eq (df : Table) (h1 : "home_set1" ∈ df.cols) (hA1 : "away_set1" ∈ df.cols) :
    rule5 df = .ok { cols := df.cols, rows := df.rows.map (r5Row df.cols) } := by
  unfold rule5 checkCol
  by_cases he : df.rows.isEmpty
  · rw [if_pos he]
    cases df with
    | mk cols rows =>
      simp only [List.isEmpty_iff] at he
      subst he
      rfl
  · rw [if_neg he, if_pos h1, if_pos hA1]
    rfl

theorem rules67_eq (df : Table) :
    rules67 df = .ok { cols := df.cols, rows := df.rows.map (r67Row df.cols) } := rfl

theorem rule1_eq' (cols : List String) (rows : List Row) (h3 : "home_set3" ∈ cols)
    (hms : "match_score" ∈ cols) :
    rule1 ⟨cols, rows⟩ = .ok ⟨cols, rows.map (r1Row cols)⟩ :=
  rule1_eq ⟨cols, rows⟩ h3 hms

theorem rule1b_eq' (cols : List String) (rows : List Row) (h2 : "home_set2" ∈ cols)
    (hms : "match_score" ∈ cols) :
    rule1b ⟨cols, rows⟩ = .ok ⟨cols, rows.map (r1bRow cols)⟩ :=
  rule1b_eq ⟨cols, rows⟩ h2 hms

theorem rule2_eq' (cols : List String) (rows : List Row)
    (h : ∀ n ∈ ([1, 2, 3] : List Nat),
      ("home_set" ++ toString n) ∈ cols → ("away_set" ++ toString n) ∈ cols) :
    rule2 ⟨cols, rows⟩ = .ok ⟨cols, rows.map (r2Row cols)⟩ :=
  rule2_eq ⟨cols, rows⟩ h

theorem rule3_eq' (cols : List String) (rows : List Row) (h1 : "home_set1" ∈ cols)
    (hA1 : "away_set1" ∈ cols) (h2 : "home_set2" ∈ cols) (hA2 : "away_set2" ∈ cols)
    (h3c : "home_set3" ∈ cols → "away_set3" ∈ cols) :
    rule3 ⟨cols, rows⟩ = .ok ⟨cols, rows.map (r3Row cols)⟩ :=
  rule3_eq ⟨cols, rows⟩ h1 hA1 h2 hA2 h3c

theorem rule4_eq' (cols : List String) (rows : List Row) :
    rule4 ⟨cols, rows⟩ = .ok ⟨cols, rows.map (r4Row cols)⟩ := rfl

theorem rule5_eq' (cols : List String) (rows : List Row) (h1 : "home_set1" ∈ cols)
    (hA1 : "away_set1" ∈ cols) :
    rule5 ⟨cols, rows⟩ = .ok ⟨cols, rows.map (r5Row cols)⟩ :=
  rule5_eq ⟨cols, rows⟩ h1 hA1

theorem rules67_eq' (cols : List String) (rows : List Row) :
    rules67 ⟨cols, rows⟩ = .ok ⟨cols, rows.map (r67Row cols)⟩ := rfl

/-- A successful run is the per-row pass mapped over the table. -/
theorem fixNan_eq_of_ok (df : Table) (h : EngineOK df.cols) :
    fixNan df = .ok { cols := df.cols, rows := df.rows.map (fixRow df.cols) } := by
  cases df with
  | mk cols rows =>
    obtain ⟨h3, hms, h2, hr2, h1, hA1, hA2, h3c⟩ := h
    show fixNan ⟨cols, rows⟩ = .ok ⟨cols, rows.map (fixRow cols)⟩
    unfold fixNan
    rw [rule1_eq' cols rows h3 hms, bindOk, rule1b_eq' cols _ h2 hms, bindOk,
      rule2_eq' cols _ hr2, bindOk, rule3_eq' cols _ h1 hA1 h2 hA2 h3c, bindOk,
      rule4_eq' cols _, bindOk, rule5_eq' cols _ h1 hA1, bindOk, rules67_eq' cols _]
    simp only [List.map_map]
    rfl

theorem rule1_inv {df d : Table} (h : rule1 df = .ok d) :
    "home_set3" ∈ df.cols ∧ "match_score" ∈ df.cols := by
  unfold rule1 checkCol at h
  by_cases h3 : "home_set3" ∈ df.cols
  · rw [if_pos h3] at h
    by_cases hms : "match_score" ∈ df.cols
    · exact ⟨h3, hms⟩
    · rw [if_neg hms, bindOk, bindErr] at h
      cases h
  · rw [if_neg h3, bindErr] at h
    cases h

theorem rule1b_inv {df d : Table} (h : rule1b df = .ok d) :
    "home_set2" ∈ df.cols ∧ "match_score" ∈ df.cols := by
  unfold rule1b checkCol at h
  by_cases h2 : "home_set2" ∈ df.cols
  · rw [if_pos h2] at h
    by_cases hms : "match_score" ∈ df.cols
    · exact ⟨h2, hms⟩
    · rw [if_neg hms, bindOk, bindErr] at h
      cases h
  · rw [if_neg h2, bindErr] at h
    cases h

theorem rule2Check_inv {df : Table} {n : Nat} {u : Unit} (h : rule2Check df n = .ok u) :
    ("home_set" ++ toString n) ∈ df.cols → ("away_set" ++ toString n) ∈ df.cols := by
  intro hm
  unfold rule2Check checkCol at h
  rw [if_pos (decide_eq_true hm)] at h
  by_cases haw : ("away_set" ++ toString n) ∈ df.cols
  · exact haw
  · rw [if_neg haw] at h
    cases h

theorem rule2_inv {df d : Table} (h : rule2 df = .ok d) :
    ∀ n ∈ ([1, 2, 3] : List Nat),
      ("home_set" ++ toString n) ∈ df.cols → ("away_set" ++ toString n) ∈ df.cols := by
  unfold rule2 at h
  intro n hn
  cases hc1 : rule2Check df 1 with
  | error e => rw [hc1, bindErr] at h; cases h
  | ok u1 =>
    rw [hc1, bindOk] at h
    cases hc2 : rule2Check df 2 with
    | error e => rw [hc2, bindErr] at h; cases h
    | ok u2 =>
      rw [hc2, bindOk] at h
      cases hc3 : rule2Check df 3 with
      | error e => rw [hc3, bindErr] at h; cases h
      | ok u3 =>
        fin_cases hn
        · exact rule2Check_inv hc1
        · exact rule2Check_inv hc2
        · exact rule2Check_inv hc3

theorem rule3_inv {df d : Table} (h : rule3 df = .ok d) :
    "home_set1" ∈ df.cols ∧ "away_set1" ∈ df.cols ∧ "away_set2" ∈ df.cols ∧
      ("home_set3" ∈ df.cols → "away_set3" ∈ df.cols) := by
  unfold rule3 checkCol at h
  by_cases h1 : "home_set1" ∈ df.cols
  rotate_left
  · rw [if_neg h1, bindErr] at h; cases h
  rw [if_pos h1] at h
  by_cases hA1 : "away_set1" ∈ df.cols
  rotate_left
  · rw [bindOk, if_neg hA1, bindErr] at h; cases h
  rw [bindOk, if_pos hA1] at h
  by_cases h2 : "home_set2" ∈ df.cols
  rotate_left
  · rw [bindOk, if_neg h2, bindErr] at h; cases h
  rw [bindOk, if_pos h2] at h
  by_cases hA2 : "away_set2" ∈ df.cols
  rotate_left
  · rw [bindOk, if_neg hA2, bindErr] at h; cases h
  rw [bindOk, if_pos hA2] at h
  refine ⟨h1, hA1, hA2, fun h3 => ?_⟩
  rw [bindOk, if_pos (decide_eq_true h3)] at h
  by_cases hA3 : "away_set3" ∈ df.cols
  · exact hA3
  · rw [if_neg hA3, bindErr] at h; cases h

end ITF


namespace ITF

theorem rule1_shape {df d : Table} (h : rule1 df = .ok d) : d.cols = df.cols := by
  unfold rule1 checkCol at h
  split_ifs at h <;> simp only [bindOk, bindErr] at h <;>
    first
    | (injection h with h'; rw [← h'])
    | exact Except.noConfusion h

theorem rule1b_shape {df d : Table} (h : rule1b df = .ok d) : d.cols = df.cols := by
  unfold rule1b checkCol at h
  split_ifs at h <;> simp only [bindOk, bindErr] at h <;>
    first
    | (injection h with h'; rw [← h'])
    | exact Except.noConfusion h

theorem rule2_shape {df d : Table} (h : rule2 df = .ok d) : d.cols = df.cols := by
  unfold rule2 rule2Check checkCol at h
  split_ifs at h <;> simp only [bindOk, bindErr] at h <;>
    first
    | (injection h with h'; rw [← h'])
    | exact Except.noConfusion h

/-- A successful run can only have happened with every unguardedly read
column present. -/
theorem fixNan_ok_engineOK {df d : Table} (h : fixNan df = .ok d) :
    EngineOK df.cols := by
  unfold fixNan at h
  cases hr1 : rule1 df with
  | error e => rw [hr1, bindErr] at h; exact Except.noConfusion h
  | ok d1 =>
    rw [hr1, bindOk] at h
    obtain ⟨m3, mms⟩ := rule1_inv hr1
    have hc1 : d1.cols = df.cols := rule1_shape hr1
    cases hr2 : rule1b d1 with
    | error e => rw [hr2, bindErr] at h; exact Except.noConfusion h
    | ok d2 =>
      rw [hr2, bindOk] at h
      obtain ⟨m2, -⟩ := rule1b_inv hr2
      rw [hc1] at m2
      have hc2 : d2.cols = df.cols := (rule1b_shape hr2).trans hc1
      cases hr3 : rule2 d2 with
      | error e => rw [hr3, bindErr] at h; exact Except.noConfusion h
      | ok d3 =>
        rw [hr3, bindOk] at h
        have mr2 := rule2_inv hr3
        rw [hc2] at mr2
        have hc3 : d3.cols = df.cols := (rule2_shape hr3).trans hc2
        cases hr4 : rule3 d3 with
        | error e => rw [hr4, bindErr] at h; exact Except.noConfusion h
        | ok d4 =>
          obtain ⟨m1, mA1, mA2, m3c⟩ := rule3_inv hr4
          rw [hc3] at m1 mA1 mA2 m3c
          exact ⟨m3, mms, m2, mr2, m1, mA1, mA2, m3c⟩

/-- **C2.**  The Conditional Nullification Engine is idempotent: running the
full rule sequence on the output of a successful run returns that output
unchanged, so two runs produce the same table as one (`main`, lines 89-318 of
`itf_fix_nan.py`; a failed run fails again identically). -/
theorem fixNan_idempotent (df : Table) : (fixNan df).bind fixNan = fixNan df := by
  cases hv : fixNan df with
  | error e => rfl
  | ok d =>
    rw [bindOk]
    have hok := fixNan_ok_engineOK hv
    have hshape := fixNan_eq_of_ok df hok
    rw [hv] at hshape
    injection hshape with hd
    subst hd
    have h2 := fixNan_eq_of_ok ⟨df.cols, df.rows.map (fixRow df.cols)⟩ hok
    rw [h2]
    dsimp only
    rw [List.map_map]
    congr 1
    congr 1
    apply List.map_congr_left
    intro r _
    exact fixRow_idem df.cols r

end ITF

namespace ITF

theorem keeps_disj {f : Row → Row} (hf : Keeps f) (r : Row) (c : String) :
    (f r).get c = r.get c ∨ (f r).get c = none := by
  cases hv : (f r).get c with
  | none => right; rfl
  | some v => left; rw [hf r c v hv]

/-- **C9.**  Monotonicity of missingness: each of the rules (1, 1b, 2, 3, 4,
5, 6-7), and the full per-row pass, either leaves a cell unchanged or writes
the missing marker into it.  Hence no rule ever un-nulls a missing cell, no
rule writes any value other than `NaN`, and the set of missing cells after
each rule is a superset of the set before it. -/
theorem rules_monotone (cols : List String) (r : Row) (c : String) :
    ((r1Row cols r).get c = r.get c ∨ (r1Row cols r).get c = none) ∧
    ((r1bRow cols r).get c = r.get c ∨ (r1bRow cols r).get c = none) ∧
    ((r2Row cols r).get c = r.get c ∨ (r2Row cols r).get c = none) ∧
    ((r3Row cols r).get c = r.get c ∨ (r3Row cols r).get c = none) ∧
    ((r4Row cols r).get c = r.get c ∨ (r4Row cols r).get c = none) ∧
    ((r5Row cols r).get c = r.get c ∨ (r5Row cols r).get c = none) ∧
    ((r67Row cols r).get c = r.get c ∨ (r67Row cols r).get c = none) ∧
    ((fixRow cols r).get c = r.get c ∨ (fixRow cols r).get c = none) :=
  ⟨keeps_disj (keeps_r1 cols) r c, keeps_disj (keeps_r1b cols) r c,
   keeps_disj (keeps_r2 cols) r c, keeps_disj (keeps_r3 cols) r c,
   keeps_disj (keeps_r4 cols) r c, keeps_disj (keeps_r5 cols) r c,
   keeps_disj (keeps_r67 cols) r c, keeps_disj (keeps_fixRow cols) r c⟩

/-! ### Concrete tables for the counterexamples -/

/-- Header of a concrete test table: the score/meta columns, padding up to
the 28 metadata columns of the real CSV, then three stat columns. -/
def cexCols : List String :=
  ["match_uid", "match_score", "home_set1", "away_set1", "home_set2", "away_set2",
   "home_set3", "away_set3"] ++ List.replicate 20 "meta" ++
  ["home_s3_bp_faced", "home_bp_faced", "home_bp_saved"]

/-- A 2-0 match whose `home_s3_bp_faced` holds the non-zero value 5. -/
def cexRow : Row :=
  { match_score := some "2-0",
    cells := fun c =>
      if c = "home_set1" then some 6 else
      if c = "away_set1" then some 3 else
      if c = "home_set2" then some 6 else
      if c = "away_set2" then some 4 else
      if c = "home_s3_bp_faced" then some 5 else none }

def cexTable : Table := { cols := cexCols, rows := [cexRow] }

/-- **C1 (counterexample).**  A cell holding the non-zero observed value 5
before the run (`home_s3_bp_faced` of a 2-0 match) is rewritten to missing
by the engine: rule 1 nulls its target columns unconditionally, not only
zero or missing cells. -/
theorem rule1_nulls_nonzero_cex :
    cexRow.get "home_s3_bp_faced" = some 5 ∧
      (fixNan cexTable).map (fun t => t.rows.map (fun r => r.get "home_s3_bp_faced")) =
        .ok [none] :=
  ⟨rfl, rfl⟩

/-- **C1 (amended).**  Only the value-gated rules — rule 5 (set-2
match-point) and rules 6-7 (opportunity-gated saved/converted) — restrict
nullification to cells whose current value is exactly zero: any cell they
change was exactly 0 and becomes missing.  Rules 1-4 null their target
columns unconditionally, erasing even non-zero values (see the
counterexample). -/
theorem valueGated_rules_only_null_zeros (cols : List String) (r : Row) (c : String) :
    ((r5Row cols r).get c = r.get c ∨
      (r.get c = some 0 ∧ (r5Row cols r).get c = none)) ∧
    ((r67Row cols r).get c = r.get c ∨
      (r.get c = some 0 ∧ (r67Row cols r).get c = none)) := by
  constructor
  · unfold r5Row
    split
    · left; rfl
    · exact foldGates_zero_change _ r c
  · exact foldGates_zero_change _ r c

/-! ### C4: rule 1 consults only `home_set3` -/

/-- The set-3 applicability predicate as the claim states it: both third-set
score columns missing, or a listed match score, or 1-1 without a recorded
set-3 score. -/
def lacksSet3Claimed (r : Row) : Bool :=
  ((r.get "home_set3").isNone && (r.get "away_set3").isNone)
    || msIn r ["2-0", "0-2"] || msIn r ["1-0", "0-1", "0-0"]
    || (msEq r "1-1" && ((r.get "home_set3").isNone && (r.get "away_set3").isNone))

/-- A 2-1 match with `away_set3` recorded but `home_set3` missing. -/
def cexRow4 : Row :=
  { match_score := some "2-1",
    cells := fun c =>
      if c = "home_set1" then some 6 else
      if c = "away_set1" then some 3 else
      if c = "home_set2" then some 4 else
      if c = "away_set2" then some 6 else
      if c = "away_set3" then some 6 else
      if c = "home_s3_bp_faced" then some 4 else none }

/-- **C4 (counterexample).**  A row whose `home_set3` is missing but whose
`away_set3` is present, with `match_score = "2-1"`, does not lack set 3
according to the claim's predicate, yet rule 1 nulls its set-3 statistic
columns: the source checks only `home_set3`, never `away_set3`. -/
theorem rule1_homeOnly_cex :
    lacksSet3Claimed cexRow4 = false ∧
      cexRow4.get "home_s3_bp_faced" = some 4 ∧
      (r1Row cexCols cexRow4).get "home_s3_bp_faced" = none :=
  ⟨rfl, rfl, rfl⟩

/-- The set-3 applicability predicate the source actually implements (the
amended claim): `home_set3` missing — `away_set3` is never consulted — or a
listed match score, or 1-1 with `home_set3` missing. -/
def lacksSet3Amended (r : Row) : Bool :=
  (r.get "home_set3").isNone || msIn r ["2-0", "0-2"] || msIn r ["1-0", "0-1", "0-0"]
    || (msEq r "1-1" && (r.get "home_set3").isNone)

/-- **C4 (amended).**  Rule 1 nulls a set-3-scoped statistic column exactly
when the amended predicate holds: `home_set3` is missing (regardless of
`away_set3`), or `match_score ∈ {2-0, 0-2, 1-0, 0-1, 0-0}`, or it is `1-1`
with `home_set3` missing; otherwise the cell is untouched.  In particular a
row with `away_set3` missing but `home_set3` present and a score outside the
list is not classified as lacking set 3. -/
theorem rule1_lacksSet3_char (cols : List String) (r : Row) (c : String)
    (hc : c ∈ s3StatCols cols) :
    (r1Row cols r).get c = if lacksSet3Amended r then none else r.get c := by
  have hmask : noS3 r = lacksSet3Amended r := rfl
  unfold r1Row
  rw [hmask]
  split_ifs
  · rw [get_nullCols, if_pos hc]
  · rfl

/-- Witness for the amended C4 at a concrete input. -/
theorem rule1_lacksSet3_char_witness :
    ("home_s3_bp_faced" ∈ s3StatCols cexCols) ∧
      (r1Row cexCols cexRow4).get "home_s3_bp_faced" =
        if lacksSet3Amended cexRow4 then none else cexRow4.get "home_s3_bp_faced" :=
  ⟨by decide, rule1_lacksSet3_char cexCols cexRow4 "home_s3_bp_faced" (by decide)⟩

end ITF

namespace ITF

/-! ### C3: the opportunity gate does not fire on a missing counterpart -/

/-- A row whose overall `home_bp_saved` is 0 while `home_bp_faced` is
missing. -/
def cexRow3 : Row :=
  { match_score := some "2-1",
    cells := fun c => if c = "home_bp_saved" then some 0 else none }

/-- **C3 (counterexample).**  With `home_bp_faced` missing and
`home_bp_saved = 0` (both columns present in the header), rules 6-7 leave
`home_bp_saved` at 0: a missing faced counterpart does not trigger
nullification, contrary to the claim's "zero OR missing". -/
theorem oppGate_missing_faced_cex :
    cexRow3.get "home_bp_faced" = none ∧ cexRow3.get "home_bp_saved" = some 0 ∧
      (r67Row cexCols cexRow3).get "home_bp_saved" = some 0 :=
  ⟨rfl, rfl, rfl⟩

theorem pairs67_tgt_nodup : (pairs67.map Prod.snd).Nodup := by decide

theorem pairs67_src_not_tgt : ∀ q ∈ pairs67, ∀ q' ∈ pairs67, q.1 ≠ q'.2 := by decide

/-- **C3 (amended).**  For every side, scope and stat family of
`CONDITIONAL_NAN_PAIRS` — i.e. every (source, target) pair of rules 6-7,
with both columns present in the header — the rule nulls the saved/converted
target exactly when the faced/opportunities source is present and exactly
zero AND the target itself is present and exactly zero.  A missing source
never triggers the nulling (pandas `== 0` is false on `NaN`). -/
theorem oppGate_char (cols : List String) (r : Row) (p : String × String)
    (hp : p ∈ pairs67) (h1 : p.1 ∈ cols) (h2 : p.2 ∈ cols) :
    (r67Row cols r).get p.2 =
      if r.get p.1 = some 0 ∧ r.get p.2 = some 0 then none else r.get p.2 := by
  have hg : ({ src := p.1, tgt := p.2, mem := decide (p.1 ∈ cols ∧ p.2 ∈ cols) } : Gate)
      ∈ r67Gates cols :=
    List.mem_map_of_mem _ hp
  have hnd : ((r67Gates cols).map Gate.tgt).Nodup := by
    rw [r67Gates_tgts]
    exact pairs67_tgt_nodup
  have hsrc : ∀ g' ∈ r67Gates cols, ∀ g'' ∈ r67Gates cols, g'.src ≠ g''.tgt := by
    intro g' hg' g'' hg''
    obtain ⟨q, hq, rfl⟩ := List.mem_map.1 hg'
    obtain ⟨q', hq', rfl⟩ := List.mem_map.1 hg''
    exact pairs67_src_not_tgt q hq q' hq'
  have hchar := foldGates_char (r67Gates cols) r _ hg hnd hsrc
  show (foldGates (r67Gates cols) r).get p.2 = _
  rw [hchar]
  by_cases hz : r.get p.1 = some 0 ∧ r.get p.2 = some 0
  · rw [if_pos ⟨decide_eq_true ⟨h1, h2⟩, hz.1, hz.2⟩, if_pos hz]
  · rw [if_neg (fun ht => hz ⟨ht.2.1, ht.2.2⟩), if_neg hz]

/-- A row with a genuine zero-of-zero break-point pair. -/
def witRow3 : Row :=
  { match_score := some "2-0",
    cells := fun c =>
      if c = "home_bp_faced" then some 0 else
      if c = "home_bp_saved" then some 0 else none }

/-- Witness for the amended C3 at a concrete input: with faced and saved
both 0 the saved counter is nulled. -/
theorem oppGate_char_witness :
    (("home_bp_faced", "home_bp_saved") ∈ pairs67) ∧
      (r67Row cexCols witRow3).get "home_bp_saved" =
        if witRow3.get "home_bp_faced" = some 0 ∧ witRow3.get "home_bp_saved" = some 0
        then none else witRow3.get "home_bp_saved" :=
  ⟨by decide,
   oppGate_char cexCols witRow3 ("home_bp_faced", "home_bp_saved")
     (by decide) (by decide) (by decide)⟩

/-! ### C8: absent stat families are no-ops, absent score columns are fatal -/

/-- A table with no set-3 columns at all. -/
def cexTableNoS3 : Table :=
  { cols := ["match_uid", "match_score", "home_set1", "away_set1",
             "home_set2", "away_set2"],
    rows := [] }

/-- **C8 (counterexample).**  On a table with no set-3 columns at all, the
engine does not complete as a no-op: rule 1's unguarded `df['home_set3']`
read (line 100) raises `KeyError` and aborts the run. -/
theorem missing_set3_fatal_cex : fixNan cexTableNoS3 = .error "home_set3" := rfl

/-- **C8 (amended).**  Absent *stat-column families* make the rules that
reference them no-ops (every target list filters on header membership), but
the *score columns* are read without guards: a table missing `home_set3`
(e.g. one with no set-3 columns at all) makes rule 1 raise an error, while
the engine succeeds — whatever stat families exist — whenever every
unguardedly read score column is present. -/
theorem missing_cols_amended (df : Table) :
    ("home_set3" ∉ df.cols → fixNan df = .error "home_set3") ∧
    (EngineOK df.cols → ∃ d, fixNan df = .ok d) := by
  constructor
  · intro h3
    unfold fixNan rule1 checkCol
    rw [if_neg h3]
    rfl
  · intro h
    exact ⟨_, fixNan_eq_of_ok df h⟩

/-- Witness for the amended C8 at concrete inputs: the no-set-3 table errors
and a table with all score columns (but only three stat columns) succeeds. -/
theorem missing_cols_amended_witness :
    fixNan cexTableNoS3 = .error "home_set3" ∧ ∃ d, fixNan cexTable = .ok d :=
  ⟨(missing_cols_amended cexTableNoS3).1 (by decide),
   (missing_cols_amended cexTable).2 (by decide)⟩

end ITF

namespace Scraper

/-! ### String-prefix helpers for the swap loop -/

theorem strExt {a b : String} (h : a.data = b.data) : a = b := by
  cases a
  cases b
  exact congrArg String.mk h

theorem strData_append (a b : String) : (a ++ b).data = a.data ++ b.data := by
  cases a
  cases b
  rfl

theorem strMk_data (s : String) : String.mk s.data = s := by
  cases s
  rfl

theorem startsHome_append (suf : String) : startsHome ("home_" ++ suf) = true := by
  unfold startsHome
  rw [strData_append]
  exact List.isPrefixOf_iff_prefix.mpr (List.prefix_append _ _)

theorem startsAway_append (suf : String) : startsAway ("away_" ++ suf) = true := by
  unfold startsAway
  rw [strData_append]
  exact List.isPrefixOf_iff_prefix.mpr (List.prefix_append _ _)

theorem awayOf_append (suf : String) : awayOf ("home_" ++ suf) = "away_" ++ suf := by
  unfold awayOf
  rw [strData_append]
  have h5 : ("home_" : String).data.length = 5 := rfl
  rw [show (5 : Nat) = ("home_" : String).data.length from rfl,
    List.drop_left, strMk_data]

theorem startsAway_awayOf (hc : String) : startsAway (awayOf hc) = true := by
  unfold awayOf startsAway
  rw [strData_append]
  exact List.isPrefixOf_iff_prefix.mpr (List.prefix_append _ _)

theorem startsHome_decomp {c : String} (h : startsHome c = true) :
    c = "home_" ++ String.mk (c.data.drop 5) := by
  obtain ⟨t, ht⟩ := List.isPrefixOf_iff_prefix.mp h
  have hdrop : c.data.drop 5 = t := by
    rw [← ht, show (5 : Nat) = ("home_" : String).data.length from rfl, List.drop_left]
  apply strExt
  rw [strData_append, hdrop]
  exact ht.symm

theorem home_away_ne {a b : String} (ha : startsHome a = true)
    (hb : startsAway b = true) : a ≠ b := by
  intro he
  subst he
  obtain ⟨t, ht⟩ := List.isPrefixOf_iff_prefix.mp ha
  obtain ⟨u, hu⟩ := List.isPrefixOf_iff_prefix.mp hb
  rw [← ht] at hu
  exact absurd (List.head_eq_of_cons_eq hu) (by decide)

theorem ne_of_pred {p : String → Bool} {a b : String} (ha : p a = true)
    (hb : p b = false) : a ≠ b := by
  intro h
  rw [h] at ha
  rw [ha] at hb
  cases hb

/-- A `home_`-prefixed column whose away counterpart is `away_ ++ suf` is
`home_ ++ suf` itself. -/
theorem homeCol_of_awayOf {hc suf : String} (hh : startsHome hc = true)
    (he : awayOf hc = "away_" ++ suf) : hc = "home_" ++ suf := by
  unfold awayOf at he
  have hdata := congrArg String.data he
  rw [strData_append, strData_append] at hdata
  have : hc.data.drop 5 = suf.data := by
    have := List.append_cancel_left hdata
    rw [← this]
  rw [startsHome_decomp hh, this, strMk_data]

/-! ### Cell-update lemmas -/

theorem upd_same (f : PRow) (c : String) (v : Option String) : upd f c v c = v :=
  if_pos rfl

theorem upd_ne (f : PRow) {c' c : String} (v : Option String) (h : c' ≠ c) :
    upd f c v c' = f c' := if_neg h

/-! ### The swap loop -/

theorem swapFold_nil (dfCols : List String) (row st : PRow) :
    swapFold dfCols row [] st = st := rfl

theorem swapFold_cons (dfCols : List String) (row : PRow) (hc : String)
    (t : List String) (st : PRow) :
    swapFold dfCols row (hc :: t) st = swapFold dfCols row t (swapPairStep dfCols row st hc) :=
  rfl

theorem swapPairStep_other (dfCols : List String) (row st : PRow) (hc : String)
    {k : String} (h1 : k ≠ hc) (h2 : k ≠ awayOf hc) :
    swapPairStep dfCols row st hc k = st k := by
  unfold swapPairStep
  split_ifs
  · rw [upd_ne _ _ h2, upd_ne _ _ h1]
  · rfl

theorem swapFold_other (dfCols : List String) (row : PRow) (l : List String)
    (hl : ∀ c ∈ l, startsHome c = true) {k : String}
    (hk1 : startsHome k = false) (hk2 : startsAway k = false) :
    ∀ st, swapFold dfCols row l st k = st k := by
  induction l with
  | nil => intro st; rfl
  | cons hc t ih =>
    intro st
    rw [swapFold_cons, ih (fun c hcm => hl c (List.mem_cons_of_mem hc hcm))]
    exact swapPairStep_other dfCols row st hc
      (ne_of_pred (hl hc (List.mem_cons_self hc t)) hk1).symm
      (ne_of_pred (startsAway_awayOf hc) hk2).symm

theorem swapFold_not_mem (dfCols : List String) (row : PRow) (l : List String)
    (hl : ∀ c ∈ l, startsHome c = true) {k : String}
    (hkH : startsHome k = true) (hk : k ∉ l) :
    ∀ st, swapFold dfCols row l st k = st k := by
  induction l with
  | nil => intro st; rfl
  | cons hc t ih =>
    intro st
    rw [swapFold_cons, ih (fun c hcm => hl c (List.mem_cons_of_mem hc hcm))
      (fun hm => hk (List.mem_cons_of_mem hc hm))]
    exact swapPairStep_other dfCols row st hc
      (fun he => hk (he ▸ List.mem_cons_self hc t))
      (home_away_ne hkH (startsAway_awayOf hc))

theorem swapFold_home_val (dfCols : List String) (row : PRow) (suf : String)
    (hac : ("away_" ++ suf) ∈ dfCols) (l : List String)
    (hl : ∀ c ∈ l, startsHome c = true) (hmem : ("home_" ++ suf) ∈ l) :
    ∀ st, swapFold dfCols row l st ("home_" ++ suf) = row ("away_" ++ suf) := by
  induction l with
  | nil => cases hmem
  | cons hc t ih =>
    intro st
    rw [swapFold_cons]
    by_cases hmemt : ("home_" ++ suf) ∈ t
    · exact ih (fun c hcm => hl c (List.mem_cons_of_mem hc hcm)) hmemt _
    · have hhc : hc = "home_" ++ suf := by
        rcases List.mem_cons.1 hmem with h | h
        · exact h.symm
        · exact absurd h hmemt
      subst hhc
      rw [swapFold_not_mem dfCols row t
        (fun c hcm => hl c (List.mem_cons_of_mem _ hcm)) (startsHome_append suf) hmemt]
      unfold swapPairStep
      rw [awayOf_append, if_pos hac,
        upd_ne _ _ (home_away_ne (startsHome_append suf) (startsAway_append suf)),
        upd_same]

theorem swapFold_away_keep (dfCols : List String) (row : PRow) (suf : String)
    (l : List String) (hl : ∀ c ∈ l, startsHome c = true) :
    ∀ st, st ("away_" ++ suf) = row ("home_" ++ suf) →
      swapFold dfCols row l st ("away_" ++ suf) = row ("home_" ++ suf) := by
  induction l with
  | nil => intro st h; exact h
  | cons hc t ih =>
    intro st h
    rw [swapFold_cons]
    apply ih (fun c hcm => hl c (List.mem_cons_of_mem hc hcm))
    unfold swapPairStep
    split_ifs with hg
    · by_cases he : awayOf hc = "away_" ++ suf
      · rw [he, upd_same,
          homeCol_of_awayOf (hl hc (List.mem_cons_self hc t)) he]
      · rw [upd_ne _ _ (fun hx => he hx.symm),
          upd_ne _ _ (home_away_ne (hl hc (List.mem_cons_self hc t))
            (startsAway_append suf)).symm, h]
    · exact h

theorem swapFold_away_val (dfCols : List String) (row : PRow) (suf : String)
    (hac : ("away_" ++ suf) ∈ dfCols) (l : List String)
    (hl : ∀ c ∈ l, startsHome c = true) (hmem : ("home_" ++ suf) ∈ l) :
    ∀ st, swapFold dfCols row l st ("away_" ++ suf) = row ("home_" ++ suf) := by
  induction l with
  | nil => cases hmem
  | cons hc t ih =>
    intro st
    rw [swapFold_cons]
    by_cases hhc : hc = "home_" ++ suf
    · subst hhc
      apply swapFold_away_keep dfCols row suf t
        (fun c hcm => hl c (List.mem_cons_of_mem _ hcm))
      unfold swapPairStep
      rw [awayOf_append, if_pos hac, upd_same]
    · have hmemt : ("home_" ++ suf) ∈ t := by
        rcases List.mem_cons.1 hmem with h | h
        · exact absurd h.symm hhc
        · exact h
      exact ih (fun c hcm => hl c (List.mem_cons_of_mem hc hcm)) hmemt _

end Scraper

namespace Scraper

theorem swapPlayers_home (row st : PRow) :
    swapPlayers row st "player_home" = row "player_away" := by
  unfold swapPlayers
  rw [upd_ne _ _ (by decide), upd_ne _ _ (by decide), upd_ne _ _ (by decide), upd_same]

theorem swapPlayers_away (row st : PRow) :
    swapPlayers row st "player_away" = row "player_home" := by
  unfold swapPlayers
  rw [upd_ne _ _ (by decide), upd_ne _ _ (by decide), upd_same]

theorem swapPlayers_home_id (row st : PRow) :
    swapPlayers row st "player_home_id" = row "player_away_id" := by
  unfold swapPlayers
  rw [upd_ne _ _ (by decide), upd_same]

theorem swapPlayers_away_id (row st : PRow) :
    swapPlayers row st "player_away_id" = row "player_home_id" := by
  unfold swapPlayers
  rw [upd_same]

theorem swapPlayers_other (row st : PRow) {k : String}
    (h1 : k ≠ "player_home") (h2 : k ≠ "player_away")
    (h3 : k ≠ "player_home_id") (h4 : k ≠ "player_away_id") :
    swapPlayers row st k = st k := by
  unfold swapPlayers
  rw [upd_ne _ _ h4, upd_ne _ _ h3, upd_ne _ _ h2, upd_ne _ _ h1]

theorem swapScore_other (dfCols : List String) (row st : PRow) {k : String}
    (hk : k ≠ "match_score") : swapScore dfCols row st k = st k := by
  unfold swapScore
  split_ifs
  · exact upd_ne _ _ hk
  · rfl

theorem swapScore_val (dfCols : List String) (row st : PRow)
    (hms : "match_score" ∈ dfCols) (ms : String) (h : row "match_score" = some ms)
    (hd : ms.data.contains '-' = true) :
    swapScore dfCols row st "match_score" =
      some ((pySplitDash ms).getD 1 "" ++ "-" ++ (pySplitDash ms).getD 0 "") := by
  have hmsS : msStr dfCols row = ms := by
    unfold msStr
    rw [if_pos hms, h]
  unfold swapScore
  rw [hmsS, if_pos hd, upd_same]

/-- **C5.**  The Swap Corrector on a row classified `swapped`
(`apply_results`, lines 481-500 of `itf_combined_scraper.py`): the player
name and id fields are exchanged, every `home_`-prefixed column is exchanged
with its identically-suffixed `away_` counterpart (when that counterpart is
in the header), `match_score` `"W-L"` becomes `"L-W"` for every best-of-3
tally, and every field that is neither side-prefixed nor one of the player
fields nor `match_score` is left unchanged. -/
theorem swapRow_spec (dfCols : List String) (row : PRow) (suf : String)
    (hh : ("home_" ++ suf) ∈ dfCols) (ha : ("away_" ++ suf) ∈ dfCols)
    (hmsd : "match_score" ∈ dfCols) (ms ms' : String)
    (hms : row "match_score" = some ms)
    (hpair : (ms, ms') ∈ [("2-0", "0-2"), ("0-2", "2-0"), ("2-1", "1-2"),
      ("1-2", "2-1"), ("1-1", "1-1"), ("1-0", "0-1"), ("0-1", "1-0"),
      ("0-0", "0-0")]) :
    swapRow dfCols row ("home_" ++ suf) = row ("away_" ++ suf) ∧
    swapRow dfCols row ("away_" ++ suf) = row ("home_" ++ suf) ∧
    swapRow dfCols row "player_home" = row "player_away" ∧
    swapRow dfCols row "player_away" = row "player_home" ∧
    swapRow dfCols row "player_home_id" = row "player_away_id" ∧
    swapRow dfCols row "player_away_id" = row "player_home_id" ∧
    swapRow dfCols row "match_score" = some ms' ∧
    (∀ c, startsHome c = false → startsAway c = false →
      c ≠ "player_home" → c ≠ "player_away" →
      c ≠ "player_home_id" → c ≠ "player_away_id" → c ≠ "match_score" →
      swapRow dfCols row c = row c) := by
  have hfilter : ∀ c ∈ dfCols.filter (fun c => startsHome c), startsHome c = true :=
    fun c hcm => List.of_mem_filter hcm
  have hmemf : ("home_" ++ suf) ∈ dfCols.filter (fun c => startsHome c) :=
    List.mem_filter.2 ⟨hh, startsHome_append suf⟩
  refine ⟨?_, ?_, ?_, ?_, ?_, ?_, ?_, ?_⟩
  · show swapScore dfCols row _ _ = _
    rw [swapScore_other dfCols row _
      (ne_of_pred (startsHome_append suf) (by decide))]
    exact swapFold_home_val dfCols row suf ha _ hfilter hmemf _
  · show swapScore dfCols row _ _ = _
    rw [swapScore_other dfCols row _
      (ne_of_pred (startsAway_append suf) (by decide : startsAway "match_score" = false))]
    exact swapFold_away_val dfCols row suf ha _ hfilter hmemf _
  · show swapScore dfCols row _ _ = _
    rw [swapScore_other dfCols row _ (by decide),
      swapFold_other dfCols row _ hfilter (by decide) (by decide)]
    exact swapPlayers_home row row
  · show swapScore dfCols row _ _ = _
    rw [swapScore_other dfCols row _ (by decide),
      swapFold_other dfCols row _ hfilter (by decide) (by decide)]
    exact swapPlayers_away row row
  · show swapScore dfCols row _ _ = _
    rw [swapScore_other dfCols row _ (by decide),
      swapFold_other dfCols row _ hfilter (by decide) (by decide)]
    exact swapPlayers_home_id row row
  · show swapScore dfCols row _ _ = _
    rw [swapScore_other dfCols row _ (by decide),
      swapFold_other dfCols row _ hfilter (by decide) (by decide)]
    exact swapPlayers_away_id row row
  · fin_cases hpair <;>
      · show swapScore dfCols row _ _ = _
        rw [swapScore_val dfCols row _ hmsd _ hms (by decide)]
        rfl
  · intro c hcH hcA hc1 hc2 hc3 hc4 hc5
    show swapScore dfCols row _ _ = _
    rw [swapScore_other dfCols row _ hc5,
      swapFold_other dfCols row _ hfilter hcH hcA]
    exact swapPlayers_other row row hc1 hc2 hc3 hc4

/-! Concrete fixtures for the scraper witnesses. -/

def wCols : List String :=
  ["player_home", "player_away", "player_home_id", "player_away_id", "match_score",
   "home_set1", "away_set1", "home_set1_tb", "away_set1_tb", "time_overall"]

def wSCols : List String :=
  ["ha_status", "page_set1_tb_home", "page_set1_tb_away", "page_time_overall"]

def wRow : PRow := fun c =>
  if c = "player_home" then some "A" else
  if c = "player_away" then some "B" else
  if c = "home_set1" then some "6" else
  if c = "away_set1" then some "3" else
  if c = "match_score" then some "2-0" else
  if c = "time_overall" then some "1:30" else none

def wScrape : PRow := fun c =>
  if c = "ha_status" then some "swapped" else
  if c = "page_set1_tb_home" then some "7" else
  if c = "page_time_overall" then some "2:00" else none

/-- Witness for C5 at the spec's own example row. -/
theorem swapRow_spec_witness :
    swapRow wCols wRow ("home_" ++ "set1") = wRow ("away_" ++ "set1") ∧
    swapRow wCols wRow "player_home" = wRow "player_away" ∧
    swapRow wCols wRow "match_score" = some "0-2" := by
  have h := swapRow_spec wCols wRow "set1" (by decide) (by decide) (by decide)
    "2-0" "0-2" rfl (by decide)
  exact ⟨h.1, h.2.2.1, h.2.2.2.2.2.2.1⟩

end Scraper

namespace Scraper

/-! ### C6: the Field Backfill Engine is non-destructive -/

theorem blankNa_of_isNone {x : Option String} (h : x.isNone = true) :
    blankNa x = true := by
  cases x
  · rfl
  · cases h

/-- Invariant of the backfill steps: every cell either still holds the
snapshot value, or the snapshot value was missing/blank and the cell now
holds a present page-fact value. -/
def pageSourced (row s st : PRow) : Prop :=
  ∀ c, st c = row c ∨
    (blankNa (row c) = true ∧ ∃ pc, st c = s pc ∧ (s pc).isSome = true)

theorem pageSourced_tbFillOne (dfCols scrapeCols : List String) (row s : PRow)
    (p : Nat × String) {st : PRow} (h : pageSourced row s st) :
    pageSourced row s (tbFillOne dfCols scrapeCols row s p st) := by
  intro c
  unfold tbFillOne
  split_ifs with hg
  · by_cases hc : c = p.2 ++ "_set" ++ toString p.1 ++ "_tb"
    · subst hc
      right
      exact ⟨blankNa_of_isNone hg.2.2.2, _, upd_same st _ _, hg.2.2.1⟩
    · rw [upd_ne _ _ hc]
      exact h c
  · exact h c

theorem pageSourced_timeFillOne (dfCols scrapeCols : List String) (row s : PRow)
    (p : String × String) {st : PRow} (h : pageSourced row s st) :
    pageSourced row s (timeFillOne dfCols scrapeCols row s p st) := by
  intro c
  unfold timeFillOne
  split_ifs with hg
  · by_cases hc : c = p.1
    · subst hc
      right
      exact ⟨hg.2.2.2, _, upd_same st _ _, hg.2.2.1⟩
    · rw [upd_ne _ _ hc]
      exact h c
  · exact h c

theorem pageSourced_dateFill (row s : PRow) {st : PRow} (h : pageSourced row s st) :
    pageSourced row s (dateFill row s st) := by
  intro c
  unfold dateFill
  split_ifs with hg
  · by_cases hc : c = "list_date_time"
    · subst hc
      right
      exact ⟨hg.2, _, upd_same st _ _, hg.1⟩
    · rw [upd_ne _ _ hc]
      exact h c
  · exact h c

theorem pageSourced_surfaceFill (scrapeCols : List String) (row s : PRow)
    {st : PRow} (h : pageSourced row s st) :
    pageSourced row s (surfaceFill scrapeCols row s st) := by
  intro c
  unfold surfaceFill
  split_ifs with hg
  · by_cases hc : c = "court_type"
    · subst hc
      right
      exact ⟨hg.2.2, _, upd_same st _ _, hg.2.1⟩
    · rw [upd_ne _ _ hc]
      exact h c
  · exact h c

theorem pageSourced_tbFold (dfCols scrapeCols : List String) (row s : PRow)
    (l : List (Nat × String)) :
    ∀ st, pageSourced row s st →
      pageSourced row s
        (l.foldl (fun st p => tbFillOne dfCols scrapeCols row s p st) st) := by
  induction l with
  | nil => intro st h; exact h
  | cons p t ih =>
    intro st h
    exact ih _ (pageSourced_tbFillOne dfCols scrapeCols row s p h)

theorem pageSourced_timeFold (dfCols scrapeCols : List String) (row s : PRow)
    (l : List (String × String)) :
    ∀ st, pageSourced row s st →
      pageSourced row s
        (l.foldl (fun st p => timeFillOne dfCols scrapeCols row s p st) st) := by
  induction l with
  | nil => intro st h; exact h
  | cons p t ih =>
    intro st h
    exact ih _ (pageSourced_timeFillOne dfCols scrapeCols row s p h)

theorem backfill_sourced (dfCols scrapeCols : List String) (row s : PRow) :
    pageSourced row s (applyBackfill dfCols scrapeCols row s) := by
  unfold applyBackfill
  exact pageSourced_surfaceFill scrapeCols row s
    (pageSourced_dateFill row s
      (pageSourced_timeFold dfCols scrapeCols row s TIME_MAP _
        (pageSourced_tbFold dfCols scrapeCols row s tbPairs row (fun c => Or.inl rfl))))

/-- **C6.**  The Field Backfill Engine (`apply_results`, lines 436-478) is
non-destructive: a record field holding a present, non-blank value is never
changed, and any field the backfill does change was missing or blank in the
snapshot and now holds a present page-fact value. -/
theorem backfill_nondestructive (dfCols scrapeCols : List String) (row s : PRow)
    (c : String) :
    (blankNa (row c) = false → applyBackfill dfCols scrapeCols row s c = row c) ∧
    (applyBackfill dfCols scrapeCols row s c ≠ row c →
      blankNa (row c) = true ∧
        ∃ pc, applyBackfill dfCols scrapeCols row s c = s pc ∧ (s pc).isSome = true) := by
  have h := backfill_sourced dfCols scrapeCols row s c
  constructor
  · intro hb
    rcases h with h | ⟨hbl, -⟩
    · exact h
    · rw [hb] at hbl
      cases hbl
  · intro hne
    rcases h with h | hr
    · exact absurd h hne
    · exact hr

/-- Witness for C6: a present, non-blank `time_overall` is not overwritten
even though the page offers a value. -/
theorem backfill_nondestructive_witness :
    blankNa (wRow "time_overall") = false ∧
      applyBackfill wCols wSCols wRow wScrape "time_overall" = wRow "time_overall" :=
  ⟨rfl, (backfill_nondestructive wCols wSCols wRow wScrape "time_overall").1 rfl⟩

end Scraper

namespace Scraper

/-! ### C10: the swap reads the pre-backfill snapshot -/

theorem tbFillOne_ne (dfCols scrapeCols : List String) (row s : PRow)
    (p : Nat × String) (st : PRow) {k : String}
    (h : k ≠ p.2 ++ "_set" ++ toString p.1 ++ "_tb") :
    tbFillOne dfCols scrapeCols row s p st k = st k := by
  unfold tbFillOne
  split_ifs
  · exact upd_ne _ _ h
  · rfl

theorem tbFillOne_val (dfCols scrapeCols : List String) (row s : PRow)
    (p : Nat × String) (st : PRow)
    (h1 : (p.2 ++ "_set" ++ toString p.1 ++ "_tb") ∈ dfCols)
    (h2 : ("page_set" ++ toString p.1 ++ "_tb_" ++ p.2) ∈ scrapeCols)
    (h3 : (s ("page_set" ++ toString p.1 ++ "_tb_" ++ p.2)).isSome = true)
    (h4 : (row (p.2 ++ "_set" ++ toString p.1 ++ "_tb")).isNone = true) :
    tbFillOne dfCols scrapeCols row s p st (p.2 ++ "_set" ++ toString p.1 ++ "_tb")
      = s ("page_set" ++ toString p.1 ++ "_tb_" ++ p.2) := by
  unfold tbFillOne
  rw [if_pos ⟨h1, h2, h3, h4⟩, upd_same]

theorem tbFold_ne (dfCols scrapeCols : List String) (row s : PRow)
    (l : List (Nat × String)) {k : String}
    (h : ∀ p ∈ l, k ≠ p.2 ++ "_set" ++ toString p.1 ++ "_tb") :
    ∀ st, l.foldl (fun st p => tbFillOne dfCols scrapeCols row s p st) st k = st k := by
  induction l with
  | nil => intro st; rfl
  | cons p t ih =>
    intro st
    rw [List.foldl_cons, ih (fun q hq => h q (List.mem_cons_of_mem p hq)),
      tbFillOne_ne dfCols scrapeCols row s p st (h p (List.mem_cons_self p t))]

theorem timeFillOne_ne (dfCols scrapeCols : List String) (row s : PRow)
    (p : String × String) (st : PRow) {k : String} (h : k ≠ p.1) :
    timeFillOne dfCols scrapeCols row s p st k = st k := by
  unfold timeFillOne
  split_ifs
  · exact upd_ne _ _ h
  · rfl

theorem timeFold_ne (dfCols scrapeCols : List String) (row s : PRow)
    (l : List (String × String)) {k : String} (h : ∀ p ∈ l, k ≠ p.1) :
    ∀ st, l.foldl (fun st p => timeFillOne dfCols scrapeCols row s p st) st k = st k := by
  induction l with
  | nil => intro st; rfl
  | cons p t ih =>
    intro st
    rw [List.foldl_cons, ih (fun q hq => h q (List.mem_cons_of_mem p hq)),
      timeFillOne_ne dfCols scrapeCols row s p st (h p (List.mem_cons_self p t))]

theorem dateFill_ne (row s : PRow) (st : PRow) {k : String}
    (h : k ≠ "list_date_time") : dateFill row s st k = st k := by
  unfold dateFill
  split_ifs
  · exact upd_ne _ _ h
  · rfl

theorem surfaceFill_ne (scrapeCols : List String) (row s : PRow) (st : PRow)
    {k : String} (h : k ≠ "court_type") : surfaceFill scrapeCols row s st k = st k := by
  unfold surfaceFill
  split_ifs
  · exact upd_ne _ _ h
  · rfl

/-- The backfill writes the present page tiebreak value into the missing
`home_set1_tb` cell. -/
theorem backfill_tb_val (dfCols scrapeCols : List String) (row s : PRow)
    (hdf : "home_set1_tb" ∈ dfCols) (hsc : "page_set1_tb_home" ∈ scrapeCols)
    (hrow : row "home_set1_tb" = none) (hpage : (s "page_set1_tb_home").isSome = true) :
    applyBackfill dfCols scrapeCols row s "home_set1_tb" = s "page_set1_tb_home" := by
  have hk : ("home_set1_tb" : String) = "home" ++ "_set" ++ toString (1 : Nat) ++ "_tb" := by
    decide
  have hpk : ("page_set1_tb_home" : String)
      = "page_set" ++ toString (1 : Nat) ++ "_tb_" ++ "home" := by decide
  unfold applyBackfill
  rw [surfaceFill_ne scrapeCols row s _ (by decide),
    dateFill_ne row s _ (by decide),
    timeFold_ne dfCols scrapeCols row s TIME_MAP (by decide) _,
    show tbPairs = (1, "home") ::
      [(1, "away"), (2, "home"), (2, "away"), (3, "home"), (3, "away")] from rfl,
    List.foldl_cons,
    tbFold_ne dfCols scrapeCols row s _ (by decide) _, hk]
  rw [tbFillOne_val dfCols scrapeCols row s (1, "home") row
    (hk ▸ hdf) (hpk ▸ hsc) (hpk ▸ hpage) (by rw [← hk, hrow]; rfl), ← hpk]

/-- **C10.**  In the apply step, the home/away swap of a `swapped` row reads
its values from the `iterrows` snapshot taken before any same-pass backfill:
when a present page tiebreak value was backfilled into the previously-missing
`home_set1_tb` earlier in the same iteration, the swap then overwrites that
column with the snapshot value of `away_set1_tb`, so the backfilled value is
lost from the final row whenever it differs from that snapshot value
(`apply_results`, lines 436-500). -/
theorem swap_overwrites_backfill (dfCols scrapeCols : List String) (row s : PRow)
    (hsw : s "ha_status" = some "swapped")
    (hdf : "home_set1_tb" ∈ dfCols) (hsc : "page_set1_tb_home" ∈ scrapeCols)
    (hrow : row "home_set1_tb" = none) (hpage : (s "page_set1_tb_home").isSome = true)
    (hac : "away_set1_tb" ∈ dfCols) :
    applyBackfill dfCols scrapeCols row s "home_set1_tb" = s "page_set1_tb_home" ∧
    applyRow dfCols scrapeCols row s "home_set1_tb" = row "away_set1_tb" ∧
    (row "away_set1_tb" ≠ s "page_set1_tb_home" →
      applyRow dfCols scrapeCols row s "home_set1_tb" ≠ s "page_set1_tb_home") := by
  have hb := backfill_tb_val dfCols scrapeCols row s hdf hsc hrow hpage
  have hsuffix : ("home_set1_tb" : String) = "home_" ++ "set1_tb" := rfl
  have hasuffix : ("away_set1_tb" : String) = "away_" ++ "set1_tb" := rfl
  have happly : applyRow dfCols scrapeCols row s "home_set1_tb" = row "away_set1_tb" := by
    unfold applyRow
    rw [if_pos (by rw [hsw]; rfl)]
    show swapScore dfCols row _ _ = _
    rw [swapScore_other dfCols row _ (by decide), hsuffix, hasuffix]
    exact swapFold_home_val dfCols row "set1_tb" (hasuffix ▸ hac) _
      (fun c hcm => List.of_mem_filter hcm)
      (List.mem_filter.2 ⟨hsuffix ▸ hdf, startsHome_append _⟩) _
  refine ⟨hb, happly, fun hne habs => hne ?_⟩
  rw [← happly, habs]

/-- Witness for C10: the page value "7" is backfilled into `home_set1_tb`
and then overwritten by the swap with the snapshot's missing
`away_set1_tb`. -/
theorem swap_overwrites_backfill_witness :
    applyBackfill wCols wSCols wRow wScrape "home_set1_tb" = wScrape "page_set1_tb_home" ∧
    applyRow wCols wSCols wRow wScrape "home_set1_tb" = wRow "away_set1_tb" ∧
    (wRow "away_set1_tb" ≠ wScrape "page_set1_tb_home" →
      applyRow wCols wSCols wRow wScrape "home_set1_tb" ≠ wScrape "page_set1_tb_home") :=
  swap_overwrites_backfill wCols wSCols wRow wScrape rfl (by decide) (by decide)
    rfl rfl (by decide)

end Scraper

namespace Scraper

/-- **C7 (counterexample).**  With ids unavailable, both away names empty and
the home surnames equal, `determine_home_away_status` returns
`('correct', 'name_match')`: the empty away surnames compare equal, so the
result is not `unknown` via `no_match` as the claim states. -/
theorem classify_empty_away_cex :
    determine_home_away_status none none none none
      (some "Alice Smith") (some "") (some "Bianca Smith") (some "") =
      some ("correct", "name_match") := rfl

/-- **C7 (amended).**  Empty or absent names yield empty surnames, but only
the two *home*-side surnames are guarded against being empty: when the
id comparison is unavailable, an empty csv-home or page-home surname forces
`('unknown', 'no_match')`, while empty *away* surnames compare equal — equal
non-empty home surnames with both away surnames empty yield
`('correct', 'name_match')` (lines 342-357 of `itf_combined_scraper.py`). -/
theorem classify_empty_surname_amended
    (csv_home_id csv_away_id page_home_id page_away_id
     csv_home_name csv_away_name page_home_name page_away_name : Option String)
    (hid : idCompare csv_home_id csv_away_id page_home_id page_away_id = none)
    (ch ca ph pa : String)
    (hch : surname csv_home_name = some ch) (hca : surname csv_away_name = some ca)
    (hph : surname page_home_name = some ph) (hpa : surname page_away_name = some pa) :
    ((ch = "" ∨ ph = "") →
      determine_home_away_status csv_home_id csv_away_id page_home_id page_away_id
        csv_home_name csv_away_name page_home_name page_away_name =
        some ("unknown", "no_match")) ∧
    (ch = ph → ch ≠ "" → ca = "" → pa = "" →
      determine_home_away_status csv_home_id csv_away_id page_home_id page_away_id
        csv_home_name csv_away_name page_home_name page_away_name =
        some ("correct", "name_match")) := by
  constructor
  · intro hor
    unfold determine_home_away_status
    rw [hid, hch, hca, hph, hpa]
    rcases hor with rfl | rfl
    · simp
    · simp
  · intro hchph hne hca0 hpa0
    subst hchph
    subst hca0
    subst hpa0
    unfold determine_home_away_status
    rw [hid, hch, hca, hph, hpa]
    simp [hne]

/-- Witness for the amended C7 at concrete inputs. -/
theorem classify_empty_surname_amended_witness :
    determine_home_away_status none none none none
      (some "") (some "A Bcd") (some "C Def") (some "E Fgh") =
      some ("unknown", "no_match") ∧
    determine_home_away_status none none none none
      (some "Ann Reed") (some "") (some "Bea Reed") (some "") =
      some ("correct", "name_match") := by
  constructor
  · exact (classify_empty_surname_amended none none none none
      (some "") (some "A Bcd") (some "C Def") (some "E Fgh") rfl
      "" "bcd" "def" "fgh" rfl rfl rfl rfl).1 (Or.inl rfl)
  · exact (classify_empty_surname_amended none none none none
      (some "Ann Reed") (some "") (some "Bea Reed") (some "") rfl
      "reed" "" "reed" "" rfl rfl rfl rfl).2 rfl (by decide) rfl rfl

end Scraper
